import Mathlib

/-!
Verification development for the audio-to-score transcription pipeline.

The pipeline is a chain of five worker tasks (audio preprocessing, stem
separation, feature extraction, note mapping, output formatting).  Each task
loads the job record from the job store, marks it PROCESSING with its own
stage name, runs an external algorithm, and either records the stage result
together with a fixed progress checkpoint or records an error and re-raises
to break the chain.  The API layer additionally exposes a result-retrieval
endpoint that reads (and in one case mutates) the job record.

The embedding below models the job store as an association list of job
records keyed by job id (Mongo `update_one` updates the first matching
document; `find_one` returns the first match).  External collaborators
(audio decoding, the separation model, feature extractors, the notation
formatters, and the filesystem) are passed in as explicit deterministic
oracle functions; a failing collaborator is an oracle returning
`Except.error`.  Wall-clock timestamp fields (`created_at`, `updated_at`,
`completed_at`) are real-time effects and are not part of the state model.
Real-valued audio payloads (durations, frequencies, sample data) are carried
as opaque integer stand-ins: no claim computes with them, they are only
stored and forwarded.
-/

namespace A2S

/-- Job status values, from `api/models.py` (`JobStatus`). -/
inductive JobStatus
  | pending
  | processing
  | completed
  | error
deriving DecidableEq, Repr

/-- The five pipeline stage names as written into `current_step` by the
five Celery tasks. -/
inductive Stage
  | audio_preprocessing
  | stem_separation
  | feature_extraction
  | note_mapping
  | output_formatting
deriving DecidableEq, Repr

/-- The string each task writes into the `error_stage` field. -/
def Stage.name : Stage → String
  | Stage.audio_preprocessing => "audio_preprocessing"
  | Stage.stem_separation => "stem_separation"
  | Stage.feature_extraction => "feature_extraction"
  | Stage.note_mapping => "note_mapping"
  | Stage.output_formatting => "output_formatting"

/-- Result dictionary of `AudioPreprocessor.process_audio`
(`modules/audio_preprocessing/processor.py`): the keys consumed by the
preprocessing task. -/
structure PreprocResults where
  processed_path : String
  spectrogram_path : String
  duration : Int
  sample_rate : Int
deriving DecidableEq, Repr

/-- Metadata dictionary of `StemSeparator.process_stems`
(`modules/stem_separation/separator.py`): the stem-name to file-path map
plus bookkeeping paths.  The per-stem analysis payload is not consumed by
any later stage and is omitted. -/
structure StemMetadata where
  original_path : String
  stems_dir : String
  stem_paths : List (String × String)
deriving DecidableEq, Repr

/-- What the stem-separation task stores under `stem_results`: either the
literal skip marker dictionary or the separator metadata. -/
inductive StemResults
  | skipped
  | separated (m : StemMetadata)
deriving DecidableEq, Repr

/-- Output of the external feature extractor invocations inside
`extract_features` (onsets, CREPE pitch track, tempo, key, polyphony) plus
the sample rate reported by `librosa.load`. -/
structure FeatureData where
  onset_times : List Int
  time : List Int
  frequency : List Int
  confidence : List Int
  tempo : Int
  beat_times : List Int
  key : String
  scale : String
  is_polyphonic : Bool
  sr : Int
deriving DecidableEq, Repr

/-- The dictionary stored under `feature_results` by `extract_features`. -/
structure FeatureResults where
  features_file : String
  onset_times : List Int
  tempo : Int
  beat_times : List Int
  key : String
  scale : String
  is_polyphonic : Bool
  stem_name : Option String
deriving DecidableEq, Repr

/-- One mapped note as produced by `NoteMapper.map_frequencies_to_notes`.
Only identity matters at the task level, so the record is kept small. -/
structure NoteData where
  midi : Int
  string_idx : Int
  fret : Int
deriving DecidableEq, Repr

/-- The dictionary stored under `note_mapping_results` by `map_to_notes`. -/
structure NoteMappingResults where
  notes : List NoteData
  tempo : Int
  key : String
  is_polyphonic : Bool
  instrument : String
deriving DecidableEq, Repr

/-- The dictionary stored under `output_results` by `format_output`.  The
per-format path assembly and success flags of `OutputFormatter` are
abstracted into the formatter oracle that produces this record. -/
structure OutputResults where
  musicxml_path : String
  midi_path : String
  pdf_path : String
  tablature_path : Option String
deriving DecidableEq, Repr

/-- The in-process transcription result written by the API pipeline in
`api/main.py` and read back by `get_job_result`. -/
structure MainResult where
  tempo : Int
  pdf_path : Option String
  musicxml_path : Option String
deriving DecidableEq, Repr

/-- A job document.  Fields mirror the keys written by `api/main.py` and the
five task modules.  `use_stem_separation`, `stem_model` and
`instrument_type` are read with `job.get(key, default)` in the source, hence
they are optional here and defaulted at the use sites. -/
structure Job where
  filename : String
  file_path : String
  status : JobStatus
  current_step : Option Stage
  progress : Option Nat
  use_stem_separation : Option Bool
  stem_model : Option String
  instrument_type : Option String
  preprocessing_results : Option PreprocResults
  stem_results : Option StemResults
  feature_results : Option FeatureResults
  note_mapping_results : Option NoteMappingResults
  output_results : Option OutputResults
  result : Option MainResult
  error_log : Option String
  error_stage : Option String
deriving DecidableEq, Repr

/-- The job store: an association list keyed by job id. -/
abbrev Store := List (String × Job)

/-- `db.jobs.find_one({"job_id": id})`: first record with the given id. -/
def findJob : Store → String → Option Job
  | [], _ => none
  | (k, j) :: rest, id => if k = id then some j else findJob rest id

/-- `db.jobs.update_one({"job_id": id}, {"$set": ...})`: apply the field
update to the first record with the given id; a miss updates nothing. -/
def updateJob : Store → String → (Job → Job) → Store
  | [], _, _ => []
  | (k, j) :: rest, id, f =>
      if k = id then (k, f j) :: rest else (k, j) :: updateJob rest id f

/-- The set (list) of job ids present in the store. -/
def jobIds (db : Store) : List String := db.map Prod.fst

/-- Progress of the record stored under an id, when both exist. -/
def getProgress (db : Store) (id : String) : Option Nat :=
  (findJob db id).bind Job.progress

/-- Upload folder from `api/config.py` (`settings.UPLOAD_FOLDER` default). -/
def UPLOAD_FOLDER : String := "./uploads"

/-- `os.path.basename`: the component after the last slash. -/
def basename (s : String) : String :=
  (s.splitOn "/").getLastD s

/-- The `$set` document every task issues on entry: mark the job PROCESSING
and record its own stage in `current_step`. -/
def setStep (s : Stage) (j : Job) : Job :=
  { j with status := JobStatus.processing, current_step := some s }

/-- The `$set` document issued from every task's `except` handler: status
ERROR, the failure message in `error_log`, the originating stage in
`error_stage`. -/
def setErr (s : Stage) (e : String) (j : Job) : Job :=
  { j with status := JobStatus.error, error_log := some e,
           error_stage := some s.name }

/-- Preprocessing success `$set`: stage result plus the 20% checkpoint. -/
def setPre (pr : PreprocResults) (j : Job) : Job :=
  { j with preprocessing_results := some pr, progress := some 20 }

/-- Stem-separation `$set`: stage result plus the 40% checkpoint. -/
def setStem (r : StemResults) (j : Job) : Job :=
  { j with stem_results := some r, progress := some 40 }

/-- Feature-extraction success `$set`: stage result plus 60%. -/
def setFeat (fr : FeatureResults) (j : Job) : Job :=
  { j with feature_results := some fr, progress := some 60 }

/-- Note-mapping success `$set`: stage result plus 80%. -/
def setNotes (nm : NoteMappingResults) (j : Job) : Job :=
  { j with note_mapping_results := some nm, progress := some 80 }

/-- Output-formatting success `$set`: COMPLETED, stage result, 100%. -/
def setOut (o : OutputResults) (j : Job) : Job :=
  { j with status := JobStatus.completed, output_results := some o,
           progress := some 100 }

/-- The dictionary `preprocess_audio` returns into the chain. -/
structure PreRet where
  job_id : String
  processed_file : String
  original_file : String
  sample_rate : Int
  duration : Int
  spectrogram_path : String
deriving DecidableEq, Repr

/-- The task `preprocess_audio` of `modules/audio_preprocessing/tasks.py`.
`process_audio` is the external `AudioPreprocessor.process_audio`
collaborator (it may raise).  Not-found and collaborator failures follow the
task's `except` handler: write the error fields and re-raise. -/
def preprocess_audio
    (process_audio : String → String → Except String PreprocResults)
    (db : Store) (job_id : String) (file_path : String) :
    Store × Except String PreRet :=
  match findJob db job_id with
  | none =>
      let msg := "Job " ++ job_id ++ " not found"
      (updateJob db job_id (setErr Stage.audio_preprocessing msg),
       Except.error msg)
  | some _ =>
      let db1 := updateJob db job_id (setStep Stage.audio_preprocessing)
      match process_audio file_path (UPLOAD_FOLDER ++ "/" ++ job_id) with
      | Except.error e =>
          (updateJob db1 job_id (setErr Stage.audio_preprocessing e),
           Except.error e)
      | Except.ok pr =>
          (updateJob db1 job_id (setPre pr),
           Except.ok { job_id := job_id,
                       processed_file := pr.processed_path,
                       original_file := file_path,
                       sample_rate := pr.sample_rate,
                       duration := pr.duration,
                       spectrogram_path := pr.spectrogram_path })

/-- The dictionary `separate_stems` returns into the chain. -/
structure StemRet where
  job_id : String
  file_to_process : String
  sample_rate : Int
  is_stem : Bool
  stem_name : Option String
deriving DecidableEq, Repr

/-- First value of a stem-paths dictionary lookup (`stem_paths.get(key)` /
`key in stem_paths`). -/
def lookupStem : List (String × String) → String → Option String
  | [], _ => none
  | (k, v) :: rest, key => if k = key then some v else lookupStem rest key

/-- The `instrument_to_stem_map` of `separate_stems`, including the dynamic
piano entry that checks whether a piano stem was produced, and the `.get`
default of "other" for unknown instruments. -/
def instrumentToStem (instrument_type : String)
    (stem_paths : List (String × String)) : String :=
  if instrument_type = "bass" then "bass"
  else if instrument_type = "guitar" then "other"
  else if instrument_type = "drums" then "drums"
  else if instrument_type = "piano" then
    (if (lookupStem stem_paths "piano").isSome then "piano" else "other")
  else if instrument_type = "vocals" then "vocals"
  else "other"

/-- The task `separate_stems` of `modules/stem_separation/tasks.py`.
`file_exists` models `os.path.exists`; `process_stems` is the external
`StemSeparator.process_stems` collaborator, taking the model name, the audio
path and the output directory.  When `use_stem_separation` is unset or
false the task skips separation and forwards the preprocessed audio; when
separation runs, the task stores the metadata with the 40% checkpoint and
then continues the same job with the single best-matching stem (or the
first available stem, or the original audio when no stem was produced). -/
def separate_stems
    (file_exists : String → Bool)
    (process_stems : String → String → String → Except String StemMetadata)
    (db : Store) (preR : PreRet) :
    Store × Except String StemRet :=
  let job_id := preR.job_id
  let processed_audio_path := preR.processed_file
  match findJob db job_id with
  | none =>
      let msg := "Job " ++ job_id ++ " not found"
      (updateJob db job_id (setErr Stage.stem_separation msg),
       Except.error msg)
  | some job =>
      let db1 := updateJob db job_id (setStep Stage.stem_separation)
      if processed_audio_path = "" ∨ file_exists processed_audio_path = false
      then
        let msg := "Processed audio file not found: " ++ processed_audio_path
        (updateJob db1 job_id (setErr Stage.stem_separation msg),
         Except.error msg)
      else if job.use_stem_separation.getD false = false then
        (updateJob db1 job_id (setStem StemResults.skipped),
         Except.ok { job_id := job_id,
                     file_to_process := processed_audio_path,
                     sample_rate := preR.sample_rate,
                     is_stem := false, stem_name := none })
      else
        let stem_model := job.stem_model.getD "spleeter:4stems"
        let job_dir := UPLOAD_FOLDER ++ "/" ++ job_id ++ "/stems"
        match process_stems stem_model processed_audio_path job_dir with
        | Except.error e =>
            (updateJob db1 job_id (setErr Stage.stem_separation e),
             Except.error e)
        | Except.ok m =>
            let db2 := updateJob db1 job_id
                         (setStem (StemResults.separated m))
            let stem_paths := m.stem_paths
            let instrument_type := job.instrument_type.getD "bass"
            let best0 := instrumentToStem instrument_type stem_paths
            let chosen : Option String :=
              if (lookupStem stem_paths best0).isSome then some best0
              else (stem_paths.map Prod.fst).head?
            match chosen with
            | none =>
                (db2, Except.ok { job_id := job_id,
                                  file_to_process := processed_audio_path,
                                  sample_rate := preR.sample_rate,
                                  is_stem := false, stem_name := none })
            | some best =>
                (db2, Except.ok
                   { job_id := job_id,
                     file_to_process := (lookupStem stem_paths best).getD "",
                     sample_rate := preR.sample_rate,
                     is_stem := true, stem_name := some best })

/-- The dictionary `extract_features` returns into the chain. -/
structure FeatRet where
  job_id : String
  onset_times : List Int
  frequency : List Int
  time : List Int
  confidence : List Int
  tempo : Int
  key : String
  is_polyphonic : Bool
  sample_rate : Int
  stem_name : Option String
deriving DecidableEq, Repr

/-- The task `extract_features` of `modules/feature_extraction/tasks.py`.
`extract` bundles the external calls of the try-body (librosa load, the
`FeatureExtractor` methods and the `.npz` save) into one collaborator on
the audio file. -/
def extract_features
    (file_exists : String → Bool)
    (extract : String → Except String FeatureData)
    (db : Store) (stemR : StemRet) :
    Store × Except String FeatRet :=
  let job_id := stemR.job_id
  let audio_file := stemR.file_to_process
  match findJob db job_id with
  | none =>
      let msg := "Job " ++ job_id ++ " not found"
      (updateJob db job_id (setErr Stage.feature_extraction msg),
       Except.error msg)
  | some _ =>
      let db1 := updateJob db job_id (setStep Stage.feature_extraction)
      if audio_file = "" ∨ file_exists audio_file = false then
        let msg := "Audio file not found: " ++ audio_file
        (updateJob db1 job_id (setErr Stage.feature_extraction msg),
         Except.error msg)
      else
        match extract audio_file with
        | Except.error e =>
            (updateJob db1 job_id (setErr Stage.feature_extraction e),
             Except.error e)
        | Except.ok fd =>
            let features_file := UPLOAD_FOLDER ++ "/" ++ job_id
                ++ "/features/" ++ basename audio_file ++ "_features.npz"
            let fr : FeatureResults :=
              { features_file := features_file,
                onset_times := fd.onset_times, tempo := fd.tempo,
                beat_times := fd.beat_times, key := fd.key,
                scale := fd.scale, is_polyphonic := fd.is_polyphonic,
                stem_name := stemR.stem_name }
            (updateJob db1 job_id (setFeat fr),
             Except.ok { job_id := job_id, onset_times := fd.onset_times,
                         frequency := fd.frequency, time := fd.time,
                         confidence := fd.confidence, tempo := fd.tempo,
                         key := fd.key, is_polyphonic := fd.is_polyphonic,
                         sample_rate := fd.sr,
                         stem_name := stemR.stem_name })

/-- The dictionary `map_to_notes` returns into the chain. -/
structure NoteRet where
  job_id : String
  notes : List NoteData
  tempo : Int
  key : String
  instrument_type : String
  stem_name : Option String
  is_polyphonic : Bool
  notes_file : String
deriving DecidableEq, Repr

/-- The task `map_to_notes` of `modules/note_mapping/tasks.py`.
`map_frequencies` bundles `NoteMapper(instrument_type)
.map_frequencies_to_notes(...)` together with the notes-file write; it takes
the instrument type (read from the job record) and the feature payload. -/
def map_to_notes
    (map_frequencies : String → FeatRet → Except String NoteMappingResults)
    (db : Store) (featR : FeatRet) :
    Store × Except String NoteRet :=
  let job_id := featR.job_id
  match findJob db job_id with
  | none =>
      let msg := "Job " ++ job_id ++ " not found"
      (updateJob db job_id (setErr Stage.note_mapping msg),
       Except.error msg)
  | some job =>
      let db1 := updateJob db job_id (setStep Stage.note_mapping)
      let instrument_type := job.instrument_type.getD "bass"
      match map_frequencies instrument_type featR with
      | Except.error e =>
          (updateJob db1 job_id (setErr Stage.note_mapping e),
           Except.error e)
      | Except.ok nm =>
          let notes_file := UPLOAD_FOLDER ++ "/" ++ job_id ++ "/notes/"
              ++ job_id ++ "_notes.json"
          (updateJob db1 job_id (setNotes nm),
           Except.ok { job_id := job_id, notes := nm.notes,
                       tempo := featR.tempo, key := featR.key,
                       instrument_type := instrument_type,
                       stem_name := featR.stem_name,
                       is_polyphonic := featR.is_polyphonic,
                       notes_file := notes_file })

/-- The dictionary `format_output` returns. -/
structure OutRet where
  job_id : String
  paths : OutputResults
  completed : Bool
deriving DecidableEq, Repr

/-- The task `format_output` of `modules/output_formatting/tasks.py`.
`format_results` bundles the `OutputFormatter` calls (MusicXML, MIDI, PDF
and tablature generation, with their path assembly) on the note payload. -/
def format_output
    (format_results : NoteRet → Except String OutputResults)
    (db : Store) (noteR : NoteRet) :
    Store × Except String OutRet :=
  let job_id := noteR.job_id
  match findJob db job_id with
  | none =>
      let msg := "Job " ++ job_id ++ " not found"
      (updateJob db job_id (setErr Stage.output_formatting msg),
       Except.error msg)
  | some _ =>
      let db1 := updateJob db job_id (setStep Stage.output_formatting)
      match format_results noteR with
      | Except.error e =>
          (updateJob db1 job_id (setErr Stage.output_formatting e),
           Except.error e)
      | Except.ok o =>
          (updateJob db1 job_id (setOut o),
           Except.ok { job_id := job_id, paths := o, completed := true })

/-- A successful response of the `/result/{job_id}` endpoint: either the
JSON result document or a file response with its media type. -/
inductive ApiAnswer
  | json (r : MainResult)
  | file (path : String) (media_type : String)
deriving DecidableEq, Repr

/-- The endpoint `get_job_result` of `api/main.py` (in-memory mode).
Failures are `HTTPException`s modelled as a status code with a detail
message.  If the job's recorded audio file no longer exists on disk, the
endpoint overwrites the job's status with ERROR and records an error_log
before raising 404 — even when the job was COMPLETED. -/
def get_job_result (file_exists : String → Bool)
    (db : Store) (job_id : String) (fmt : String) :
    Store × Except (Nat × String) ApiAnswer :=
  match findJob db job_id with
  | none =>
      (db, Except.error (404, "Job with ID " ++ job_id ++ " not found"))
  | some job =>
      if job.file_path ≠ "" ∧ file_exists job.file_path = false then
        let msg := "Original audio file no longer exists: "
            ++ basename job.file_path
        (updateJob db job_id
           (fun j => { j with status := JobStatus.error,
                              error_log := some msg }),
         Except.error (404, msg))
      else if job.status ≠ JobStatus.completed then
        (db, Except.error (400, "Job is not completed yet."))
      else
        match job.result with
        | none => (db, Except.error (404, "No result found for this job"))
        | some r =>
            if fmt = "json" then (db, Except.ok (ApiAnswer.json r))
            else if fmt = "pdf" then
              match r.pdf_path with
              | none => (db, Except.error (404, "PDF result not available"))
              | some p =>
                  if file_exists p = true then
                    (db, Except.ok (ApiAnswer.file p "application/pdf"))
                  else
                    (db, Except.error (404, "PDF result not available"))
            else if fmt = "musicxml" then
              match r.musicxml_path with
              | none =>
                  (db, Except.error (404, "MusicXML result not available"))
              | some p =>
                  if file_exists p = true then
                    (db, Except.ok (ApiAnswer.file p "application/xml"))
                  else
                    (db,
                     Except.error (404, "MusicXML result not available"))
            else
              (db, Except.error (400, "Unsupported format: " ++ fmt))

/-- The note mapper of `modules/note_mapping/mapper.py`, reduced to the data
`pitch_to_string_fret` consumes: the MIDI numbers of the open strings
(`tuning_pitches`, highest to lowest as listed in the tuning presets). -/
structure NoteMapper where
  tuning_midi : List Int
deriving DecidableEq, Repr

/-- `self.string_count = len(self.tuning)`. -/
def NoteMapper.string_count (m : NoteMapper) : Nat := m.tuning_midi.length

/-- Standard 4-string bass tuning E1 A1 D2 G2 as MIDI numbers
(`TuningPreset.BASS_STANDARD`). -/
def BASS_STANDARD_MIDI : List Int := [28, 33, 38, 43]

/-- The in-range candidate positions of `pitch_to_string_fret`: every
`(string_idx, fret)` with `0 ≤ fret ≤ 24`, strings enumerated from `i`. -/
def positionsAux (pm : Int) : List Int → Int → List (Int × Int)
  | [], _ => []
  | op :: rest, i =>
      let fret := pm - op
      (if 0 ≤ fret ∧ fret ≤ 24 then [(i, fret)] else [])
        ++ positionsAux pm rest (i + 1)

/-- Strict comparison against the running minimum, where `none` stands for
the initial `float('inf')`. -/
def ltMin (d : Int) : Option Int → Bool
  | none => true
  | some mn => decide (d < mn)

/-- The closest-match fallback loop of `pitch_to_string_fret`: for each
string, a pitch below the open string competes with distance `abs(fret)`
and fret 0, a pitch above fret 24 with distance `fret - 24` and fret 24.
State is (closest_string, closest_fret, min_distance). -/
def fallbackAux (pm : Int) :
    List Int → Int → Int × Int × Option Int → Int × Int × Option Int
  | [], _, st => st
  | op :: rest, i, (cs, cf, md) =>
      let fret := pm - op
      let st :=
        if fret < 0 then
          (if ltMin (-fret) md then (i, 0, some (-fret)) else (cs, cf, md))
        else if fret > 24 then
          (if ltMin (fret - 24) md then (i, 24, some (fret - 24))
           else (cs, cf, md))
        else (cs, cf, md)
      fallbackAux pm rest (i + 1) st

/-- `position_score`: fret * 2 plus 5 per string away from the middle
string (`abs(string_idx - string_count // 2) * 5`). -/
def positionScore (count : Nat) (pos : Int × Int) : Int :=
  pos.2 * 2 + ((pos.1 - (count / 2 : Nat)).natAbs : Int) * 5

/-- `min(positions, key=position_score)`: the first position attaining the
minimal score (Python `min` keeps the earliest among ties). -/
def bestPositionAux (count : Nat) :
    Int × Int → List (Int × Int) → Int × Int
  | best, [] => best
  | best, p :: rest =>
      bestPositionAux count
        (if positionScore count p < positionScore count best then p
         else best) rest

/-- `NoteMapper.pitch_to_string_fret`: `(-1, -1)` for a rest, otherwise the
playing-efficiency-best in-range position, falling back to the closest
string/fret clamp when the pitch fits on no string. -/
def NoteMapper.pitch_to_string_fret (m : NoteMapper) (pitch : Option Int) :
    Int × Int :=
  match pitch with
  | none => (-1, -1)
  | some pm =>
      match positionsAux pm m.tuning_midi 0 with
      | [] =>
          let st := fallbackAux pm m.tuning_midi 0 (0, 0, none)
          (st.1, st.2.1)
      | p :: rest => bestPositionAux m.string_count p rest

/-- `os.path.splitext(...)[0]` on a basename: drop the last dot-suffix. -/
def splitextBase (s : String) : String :=
  let ps := s.splitOn "."
  if ps.length ≤ 1 then s else String.intercalate "." ps.dropLast

/-- `StemSeparator.separate_stems` of `modules/stem_separation/separator.py`
returns a stem-name to path map.  `import_ok` models the guarded
tensorflow/spleeter import; `separate` models Separator construction plus
`separate_to_file`; `file_exists` models the per-stem `os.path.exists`
check.  Any failure falls back to `{"original": audio_path}`. -/
def StemSeparator.separate_stems
    (import_ok : Bool) (separate : Except String Unit)
    (file_exists : String → Bool)
    (model_name : String) (audio_path : String) (output_dir : String) :
    List (String × String) :=
  if import_ok = false then [("original", audio_path)]
  else
    match separate with
    | Except.error _ => [("original", audio_path)]
    | Except.ok _ =>
        let base := splitextBase (basename audio_path)
        let stems_path := output_dir ++ "/" ++ base
        let expected_stems :=
          if model_name = "spleeter:2stems" then ["vocals", "accompaniment"]
          else if model_name = "spleeter:4stems" then
            ["vocals", "drums", "bass", "other"]
          else if model_name = "spleeter:5stems" then
            ["vocals", "drums", "bass", "piano", "other"]
          else []
        expected_stems.filterMap fun stem =>
          let stem_file := stems_path ++ "/" ++ stem ++ ".wav"
          if file_exists stem_file = true then some (stem, stem_file)
          else none

/-- A freshly-uploaded job record as created by `upload_audio` (plus the
optional processing parameters left unset). -/
def baseJob : Job :=
  { filename := "song.mp3", file_path := "./uploads/j_song.mp3",
    status := JobStatus.pending, current_step := none, progress := none,
    use_stem_separation := none, stem_model := none,
    instrument_type := none, preprocessing_results := none,
    stem_results := none, feature_results := none,
    note_mapping_results := none, output_results := none, result := none,
    error_log := none, error_stage := none }

/-- Sample successful preprocessing payload. -/
def samplePre : PreprocResults :=
  { processed_path := "proc.wav", spectrogram_path := "spec.png",
    duration := 3, sample_rate := 44100 }

/-- Sample successful feature-extraction payload. -/
def sampleFeat : FeatureData :=
  { onset_times := [0], time := [0], frequency := [41], confidence := [9],
    tempo := 120, beat_times := [0], key := "C", scale := "major",
    is_polyphonic := false, sr := 44100 }

/-- Sample successful note-mapping payload. -/
def sampleNMR : NoteMappingResults :=
  { notes := [], tempo := 120, key := "C", is_polyphonic := false,
    instrument := "bass" }

/-- Sample successful output-formatting payload. -/
def sampleOut : OutputResults :=
  { musicxml_path := "o.musicxml", midi_path := "o.mid",
    pdf_path := "o.pdf", tablature_path := some "o_tab.pdf" }

/-- Sample in-process API transcription result. -/
def sampleMain : MainResult :=
  { tempo := 120, pdf_path := none, musicxml_path := none }

/-- Preprocessor oracle that always succeeds with `samplePre`. -/
def paOk : String → String → Except String PreprocResults :=
  fun _ _ => Except.ok samplePre

/-- Separator oracle, unused on the skip path. -/
def psSkip : String → String → String → Except String StemMetadata :=
  fun _ _ _ => Except.error "unused"

/-- Extractor oracle that always succeeds with `sampleFeat`. -/
def exOk : String → Except String FeatureData :=
  fun _ => Except.ok sampleFeat

/-- Mapper oracle that always succeeds with `sampleNMR`. -/
def mfOk : String → FeatRet → Except String NoteMappingResults :=
  fun _ _ => Except.ok sampleNMR

/-- Formatter oracle that always succeeds with `sampleOut`. -/
def foOk : NoteRet → Except String OutputResults :=
  fun _ => Except.ok sampleOut

/-- Filesystem oracle on which every path exists. -/
def allFiles : String → Bool := fun _ => true

/-- The store holding the single fresh job "j". -/
def store0 : Store := [("j", baseJob)]

/-- Store after delivering preprocessing for "j" with `paOk`. -/
def chainDb1 : Store := (preprocess_audio paOk store0 "j" "a.wav").1

/-- The payload preprocessing hands to the chain in that run. -/
def chainR1 : PreRet :=
  { job_id := "j", processed_file := "proc.wav", original_file := "a.wav",
    sample_rate := 44100, duration := 3, spectrogram_path := "spec.png" }

/-- Store after the subsequent (skipped) stem-separation delivery. -/
def chainDb2 : Store := (separate_stems allFiles psSkip chainDb1 chainR1).1

/-- The payload stem separation hands to the chain in that run. -/
def chainR2 : StemRet :=
  { job_id := "j", file_to_process := "proc.wav", sample_rate := 44100,
    is_stem := false, stem_name := none }

/-- Store after the subsequent feature-extraction delivery. -/
def chainDb3 : Store := (extract_features allFiles exOk chainDb2 chainR2).1

/-- The payload feature extraction hands to the chain in that run. -/
def chainR3 : FeatRet :=
  { job_id := "j", onset_times := [0], frequency := [41], time := [0],
    confidence := [9], tempo := 120, key := "C", is_polyphonic := false,
    sample_rate := 44100, stem_name := none }

/-- Store after the subsequent note-mapping delivery. -/
def chainDb4 : Store := (map_to_notes mfOk chainDb3 chainR3).1

/-- The payload note mapping hands to the chain in that run. -/
def chainR4 : NoteRet :=
  { job_id := "j", notes := [], tempo := 120, key := "C",
    instrument_type := "bass", stem_name := none, is_polyphonic := false,
    notes_file := "./uploads/j/notes/j_notes.json" }

/-- Store after the final output-formatting delivery. -/
def chainDb5 : Store := (format_output foOk chainDb4 chainR4).1

/-- The payload output formatting returns in that run. -/
def chainR5 : OutRet :=
  { job_id := "j", paths := sampleOut, completed := true }

/-- A job whose pipeline has advanced to note mapping (progress 80). -/
def jobAtNoteMapping : Job :=
  { baseJob with status := JobStatus.processing,
                 current_step := some Stage.note_mapping,
                 progress := some 80,
                 preprocessing_results := some samplePre,
                 stem_results := some StemResults.skipped,
                 feature_results := some
                   { features_file := "f.npz", onset_times := [0],
                     tempo := 120, beat_times := [0], key := "C",
                     scale := "major", is_polyphonic := false,
                     stem_name := none } }

/-- The observable outcome every failing stage leaves behind: status ERROR,
the originating stage and message recorded, and every previously recorded
stage result — and the progress value — retained unchanged from the prior
record `j`. -/
def errorOutcome (db : Store) (id : String) (s : Stage) (e : String)
    (j : Job) : Prop :=
  (findJob db id).map Job.status = some JobStatus.error
  ∧ (findJob db id).map Job.error_stage = some (some s.name)
  ∧ (findJob db id).map Job.error_log = some (some e)
  ∧ (findJob db id).map Job.preprocessing_results
      = some j.preprocessing_results
  ∧ (findJob db id).map Job.stem_results = some j.stem_results
  ∧ (findJob db id).map Job.feature_results = some j.feature_results
  ∧ (findJob db id).map Job.note_mapping_results
      = some j.note_mapping_results
  ∧ (findJob db id).map Job.output_results = some j.output_results
  ∧ (findJob db id).map Job.progress = some j.progress

/-- A job that has finished the whole pipeline: COMPLETED with a stored
result. -/
def completedJob : Job :=
  { baseJob with status := JobStatus.completed,
                 current_step := some Stage.output_formatting,
                 progress := some 100, result := some sampleMain }

/-- A job that requested stem separation, targeting bass. -/
def fanJob : Job :=
  { baseJob with use_stem_separation := some true,
                 instrument_type := some "bass" }

/-- Separator metadata carrying two usable stems (and no bass stem). -/
def twoStems : StemMetadata :=
  { original_path := "proc.wav", stems_dir := "./uploads/j/stems",
    stem_paths := [("vocals", "v.wav"), ("drums", "d.wav")] }

theorem findJob_updateJob_self (db : Store) (id : String) (f : Job → Job) :
    findJob (updateJob db id f) id = (findJob db id).map f := by
  induction db with
  | nil => rfl
  | cons hd tl ih =>
      obtain ⟨k, j⟩ := hd
      by_cases hk : k = id
      · simp [findJob, updateJob, hk]
      · simp [findJob, updateJob, hk, ih]

theorem updateJob_updateJob (db : Store) (id : String) (f g : Job → Job) :
    updateJob (updateJob db id f) id g
      = updateJob db id (fun j => g (f j)) := by
  induction db with
  | nil => rfl
  | cons hd tl ih =>
      obtain ⟨k, j⟩ := hd
      by_cases hk : k = id
      · simp [updateJob, hk]
      · simp [updateJob, hk, ih]

theorem updateJob_of_findJob_none {db : Store} {id : String}
    (h : findJob db id = none) (f : Job → Job) : updateJob db id f = db := by
  induction db with
  | nil => rfl
  | cons hd tl ih =>
      obtain ⟨k, j⟩ := hd
      by_cases hk : k = id
      · simp [findJob, hk] at h
      · simp [findJob, hk] at h
        simp [updateJob, hk, ih h]

theorem jobIds_updateJob (db : Store) (id : String) (f : Job → Job) :
    jobIds (updateJob db id f) = jobIds db := by
  induction db with
  | nil => rfl
  | cons hd tl ih =>
      obtain ⟨k, j⟩ := hd
      by_cases hk : k = id
      · simp [updateJob, jobIds, hk]
      · simp only [updateJob, jobIds, List.map_cons, if_neg hk] at ih ⊢
        rw [ih]

/-- Characterization: preprocessing on a missing job leaves the store
unchanged (the error `$set` matches no document) and raises. -/
theorem preprocess_audio_not_found
    (pa : String → String → Except String PreprocResults)
    {db : Store} {job_id : String} (file_path : String)
    (h : findJob db job_id = none) :
    preprocess_audio pa db job_id file_path
      = (db, Except.error ("Job " ++ job_id ++ " not found")) := by
  simp [preprocess_audio, h, updateJob_of_findJob_none h]

/-- Characterization: preprocessing whose collaborator fails records the
error on top of the entry `$set` and raises. -/
theorem preprocess_audio_fail
    {pa : String → String → Except String PreprocResults}
    {db : Store} {job_id file_path : String} {j : Job} {e : String}
    (h : findJob db job_id = some j)
    (hp : pa file_path (UPLOAD_FOLDER ++ "/" ++ job_id) = Except.error e) :
    preprocess_audio pa db job_id file_path
      = (updateJob db job_id
           (fun x => setErr Stage.audio_preprocessing e
                       (setStep Stage.audio_preprocessing x)),
         Except.error e) := by
  simp [preprocess_audio, h, hp, updateJob_updateJob]

/-- Characterization: successful preprocessing issues the entry `$set` then
the result `$set` with the 20% checkpoint, and returns the chain payload. -/
theorem preprocess_audio_ok
    {pa : String → String → Except String PreprocResults}
    {db : Store} {job_id file_path : String} {j : Job} {pr : PreprocResults}
    (h : findJob db job_id = some j)
    (hp : pa file_path (UPLOAD_FOLDER ++ "/" ++ job_id) = Except.ok pr) :
    preprocess_audio pa db job_id file_path
      = (updateJob db job_id
           (fun x => setPre pr (setStep Stage.audio_preprocessing x)),
         Except.ok { job_id := job_id,
                     processed_file := pr.processed_path,
                     original_file := file_path,
                     sample_rate := pr.sample_rate,
                     duration := pr.duration,
                     spectrogram_path := pr.spectrogram_path }) := by
  simp [preprocess_audio, h, hp, updateJob_updateJob]

/-- Characterization: the skip branch.  Separation not requested, so the
task records the skip marker with the 40% checkpoint and forwards the
preprocessed audio unchanged with `is_stem = false`. -/
theorem separate_stems_skip
    {fe : String → Bool}
    {ps : String → String → String → Except String StemMetadata}
    {db : Store} {preR : PreRet} {j : Job}
    (h : findJob db preR.job_id = some j)
    (hne : preR.processed_file ≠ "")
    (hex : fe preR.processed_file = true)
    (hskip : j.use_stem_separation.getD false = false) :
    separate_stems fe ps db preR
      = (updateJob db preR.job_id
           (fun x => setStem StemResults.skipped
                       (setStep Stage.stem_separation x)),
         Except.ok { job_id := preR.job_id,
                     file_to_process := preR.processed_file,
                     sample_rate := preR.sample_rate,
                     is_stem := false, stem_name := none }) := by
  simp [separate_stems, h, hne, hex, hskip, updateJob_updateJob]

/-- Characterization: the separation branch with a failing separator. -/
theorem separate_stems_fail
    {fe : String → Bool}
    {ps : String → String → String → Except String StemMetadata}
    {db : Store} {preR : PreRet} {j : Job} {e : String}
    (h : findJob db preR.job_id = some j)
    (hne : preR.processed_file ≠ "")
    (hex : fe preR.processed_file = true)
    (hsep : j.use_stem_separation.getD false = true)
    (hp : ps (j.stem_model.getD "spleeter:4stems") preR.processed_file
            (UPLOAD_FOLDER ++ "/" ++ preR.job_id ++ "/stems")
          = Except.error e) :
    separate_stems fe ps db preR
      = (updateJob db preR.job_id
           (fun x => setErr Stage.stem_separation e
                       (setStep Stage.stem_separation x)),
         Except.error e) := by
  simp [separate_stems, h, hne, hex, hsep, hp, updateJob_updateJob]

/-- Characterization: the separation branch with a successful separator.
The metadata and the 40% checkpoint are stored, and the returned payload is
determined by the best-stem selection. -/
theorem separate_stems_separated
    {fe : String → Bool}
    {ps : String → String → String → Except String StemMetadata}
    {db : Store} {preR : PreRet} {j : Job} {m : StemMetadata}
    (h : findJob db preR.job_id = some j)
    (hne : preR.processed_file ≠ "")
    (hex : fe preR.processed_file = true)
    (hsep : j.use_stem_separation.getD false = true)
    (hp : ps (j.stem_model.getD "spleeter:4stems") preR.processed_file
            (UPLOAD_FOLDER ++ "/" ++ preR.job_id ++ "/stems")
          = Except.ok m) :
    separate_stems fe ps db preR
      = (updateJob db preR.job_id
           (fun x => setStem (StemResults.separated m)
                       (setStep Stage.stem_separation x)),
         match (if (lookupStem m.stem_paths
                      (instrumentToStem (j.instrument_type.getD "bass")
                         m.stem_paths)).isSome
                then some (instrumentToStem (j.instrument_type.getD "bass")
                             m.stem_paths)
                else (m.stem_paths.map Prod.fst).head?) with
         | none =>
             Except.ok { job_id := preR.job_id,
                         file_to_process := preR.processed_file,
                         sample_rate := preR.sample_rate,
                         is_stem := false, stem_name := none }
         | some best =>
             Except.ok { job_id := preR.job_id,
                         file_to_process :=
                           (lookupStem m.stem_paths best).getD "",
                         sample_rate := preR.sample_rate,
                         is_stem := true, stem_name := some best }) := by
  simp [separate_stems, h, hne, hex, hsep, hp, updateJob_updateJob]
  split <;> simp

/-- Characterization: feature extraction on a present job, existing audio
file and successful extractor. -/
theorem extract_features_ok
    {fe : String → Bool} {ex : String → Except String FeatureData}
    {db : Store} {stemR : StemRet} {j : Job} {fd : FeatureData}
    (h : findJob db stemR.job_id = some j)
    (hne : stemR.file_to_process ≠ "")
    (hex : fe stemR.file_to_process = true)
    (hx : ex stemR.file_to_process = Except.ok fd) :
    extract_features fe ex db stemR
      = (updateJob db stemR.job_id
           (fun x => setFeat
               { features_file := UPLOAD_FOLDER ++ "/" ++ stemR.job_id
                   ++ "/features/" ++ basename stemR.file_to_process
                   ++ "_features.npz",
                 onset_times := fd.onset_times, tempo := fd.tempo,
                 beat_times := fd.beat_times, key := fd.key,
                 scale := fd.scale, is_polyphonic := fd.is_polyphonic,
                 stem_name := stemR.stem_name }
               (setStep Stage.feature_extraction x)),
         Except.ok { job_id := stemR.job_id, onset_times := fd.onset_times,
                     frequency := fd.frequency, time := fd.time,
                     confidence := fd.confidence, tempo := fd.tempo,
                     key := fd.key, is_polyphonic := fd.is_polyphonic,
                     sample_rate := fd.sr,
                     stem_name := stemR.stem_name }) := by
  simp [extract_features, h, hne, hex, hx, updateJob_updateJob]

/-- Characterization: feature extraction whose collaborator fails. -/
theorem extract_features_fail
    {fe : String → Bool} {ex : String → Except String FeatureData}
    {db : Store} {stemR : StemRet} {j : Job} {e : String}
    (h : findJob db stemR.job_id = some j)
    (hne : stemR.file_to_process ≠ "")
    (hex : fe stemR.file_to_process = true)
    (hx : ex stemR.file_to_process = Except.error e) :
    extract_features fe ex db stemR
      = (updateJob db stemR.job_id
           (fun x => setErr Stage.feature_extraction e
                       (setStep Stage.feature_extraction x)),
         Except.error e) := by
  simp [extract_features, h, hne, hex, hx, updateJob_updateJob]

/-- Characterization: note mapping on a present job with a successful
mapper. -/
theorem map_to_notes_ok
    {mf : String → FeatRet → Except String NoteMappingResults}
    {db : Store} {featR : FeatRet} {j : Job} {nm : NoteMappingResults}
    (h : findJob db featR.job_id = some j)
    (hm : mf (j.instrument_type.getD "bass") featR = Except.ok nm) :
    map_to_notes mf db featR
      = (updateJob db featR.job_id
           (fun x => setNotes nm (setStep Stage.note_mapping x)),
         Except.ok { job_id := featR.job_id, notes := nm.notes,
                     tempo := featR.tempo, key := featR.key,
                     instrument_type := j.instrument_type.getD "bass",
                     stem_name := featR.stem_name,
                     is_polyphonic := featR.is_polyphonic,
                     notes_file := UPLOAD_FOLDER ++ "/" ++ featR.job_id
                       ++ "/notes/" ++ featR.job_id ++ "_notes.json" }) := by
  simp [map_to_notes, h, hm, updateJob_updateJob]

/-- Characterization: note mapping whose collaborator fails. -/
theorem map_to_notes_fail
    {mf : String → FeatRet → Except String NoteMappingResults}
    {db : Store} {featR : FeatRet} {j : Job} {e : String}
    (h : findJob db featR.job_id = some j)
    (hm : mf (j.instrument_type.getD "bass") featR = Except.error e) :
    map_to_notes mf db featR
      = (updateJob db featR.job_id
           (fun x => setErr Stage.note_mapping e
                       (setStep Stage.note_mapping x)),
         Except.error e) := by
  simp [map_to_notes, h, hm, updateJob_updateJob]

/-- Characterization: output formatting on a present job with a successful
formatter: COMPLETED, stored outputs, 100% checkpoint. -/
theorem format_output_ok
    {fo : NoteRet → Except String OutputResults}
    {db : Store} {noteR : NoteRet} {j : Job} {o : OutputResults}
    (h : findJob db noteR.job_id = some j)
    (hf : fo noteR = Except.ok o) :
    format_output fo db noteR
      = (updateJob db noteR.job_id
           (fun x => setOut o (setStep Stage.output_formatting x)),
         Except.ok { job_id := noteR.job_id, paths := o,
                     completed := true }) := by
  simp [format_output, h, hf, updateJob_updateJob]

/-- Characterization: output formatting whose collaborator fails. -/
theorem format_output_fail
    {fo : NoteRet → Except String OutputResults}
    {db : Store} {noteR : NoteRet} {j : Job} {e : String}
    (h : findJob db noteR.job_id = some j)
    (hf : fo noteR = Except.error e) :
    format_output fo db noteR
      = (updateJob db noteR.job_id
           (fun x => setErr Stage.output_formatting e
                       (setStep Stage.output_formatting x)),
         Except.error e) := by
  simp [format_output, h, hf, updateJob_updateJob]

/-- Characterization: a stem-separation delivery for a missing job leaves
the store unchanged and raises. -/
theorem separate_stems_not_found
    (fe : String → Bool)
    (ps : String → String → String → Except String StemMetadata)
    {db : Store} {preR : PreRet}
    (h : findJob db preR.job_id = none) :
    separate_stems fe ps db preR
      = (db, Except.error ("Job " ++ preR.job_id ++ " not found")) := by
  simp [separate_stems, h, updateJob_of_findJob_none h]

/-- Characterization: stem separation when the preprocessed file is absent
or the path is empty. -/
theorem separate_stems_no_file
    {fe : String → Bool}
    {ps : String → String → String → Except String StemMetadata}
    {db : Store} {preR : PreRet} {j : Job}
    (h : findJob db preR.job_id = some j)
    (hc : preR.processed_file = "" ∨ fe preR.processed_file = false) :
    separate_stems fe ps db preR
      = (updateJob db preR.job_id
           (fun x => setErr Stage.stem_separation
               ("Processed audio file not found: " ++ preR.processed_file)
               (setStep Stage.stem_separation x)),
         Except.error
           ("Processed audio file not found: " ++ preR.processed_file)) := by
  simp only [separate_stems, h]
  rw [if_pos hc, updateJob_updateJob]

/-- Characterization: a feature-extraction delivery for a missing job. -/
theorem extract_features_not_found
    (fe : String → Bool) (ex : String → Except String FeatureData)
    {db : Store} {stemR : StemRet}
    (h : findJob db stemR.job_id = none) :
    extract_features fe ex db stemR
      = (db, Except.error ("Job " ++ stemR.job_id ++ " not found")) := by
  simp [extract_features, h, updateJob_of_findJob_none h]

/-- Characterization: feature extraction when the audio file is absent. -/
theorem extract_features_no_file
    {fe : String → Bool} {ex : String → Except String FeatureData}
    {db : Store} {stemR : StemRet} {j : Job}
    (h : findJob db stemR.job_id = some j)
    (hc : stemR.file_to_process = ""
          ∨ fe stemR.file_to_process = false) :
    extract_features fe ex db stemR
      = (updateJob db stemR.job_id
           (fun x => setErr Stage.feature_extraction
               ("Audio file not found: " ++ stemR.file_to_process)
               (setStep Stage.feature_extraction x)),
         Except.error
           ("Audio file not found: " ++ stemR.file_to_process)) := by
  simp only [extract_features, h]
  rw [if_pos hc, updateJob_updateJob]

/-- Characterization: a note-mapping delivery for a missing job. -/
theorem map_to_notes_not_found
    (mf : String → FeatRet → Except String NoteMappingResults)
    {db : Store} {featR : FeatRet}
    (h : findJob db featR.job_id = none) :
    map_to_notes mf db featR
      = (db, Except.error ("Job " ++ featR.job_id ++ " not found")) := by
  simp [map_to_notes, h, updateJob_of_findJob_none h]

/-- Characterization: an output-formatting delivery for a missing job. -/
theorem format_output_not_found
    (fo : NoteRet → Except String OutputResults)
    {db : Store} {noteR : NoteRet}
    (h : findJob db noteR.job_id = none) :
    format_output fo db noteR
      = (db, Except.error ("Job " ++ noteR.job_id ++ " not found")) := by
  simp [format_output, h, updateJob_of_findJob_none h]

theorem preprocess_audio_idem
    (pa : String → String → Except String PreprocResults)
    (db : Store) (id fp : String) :
    preprocess_audio pa (preprocess_audio pa db id fp).1 id fp
      = preprocess_audio pa db id fp := by
  cases h : findJob db id with
  | none =>
      rw [preprocess_audio_not_found pa fp h]
      exact preprocess_audio_not_found pa fp h
  | some j =>
      cases hp : pa fp (UPLOAD_FOLDER ++ "/" ++ id) with
      | error e =>
          rw [preprocess_audio_fail h hp]
          dsimp only
          have h2 : findJob (updateJob db id
              (fun x => setErr Stage.audio_preprocessing e
                          (setStep Stage.audio_preprocessing x))) id
              = some (setErr Stage.audio_preprocessing e
                        (setStep Stage.audio_preprocessing j)) := by
            rw [findJob_updateJob_self, h]; rfl
          rw [preprocess_audio_fail h2 hp, updateJob_updateJob]
          rfl
      | ok pr =>
          rw [preprocess_audio_ok h hp]
          dsimp only
          have h2 : findJob (updateJob db id
              (fun x => setPre pr (setStep Stage.audio_preprocessing x))) id
              = some (setPre pr (setStep Stage.audio_preprocessing j)) := by
            rw [findJob_updateJob_self, h]; rfl
          rw [preprocess_audio_ok h2 hp, updateJob_updateJob]
          rfl

theorem separate_stems_idem
    (fe : String → Bool)
    (ps : String → String → String → Except String StemMetadata)
    (db : Store) (preR : PreRet) :
    separate_stems fe ps (separate_stems fe ps db preR).1 preR
      = separate_stems fe ps db preR := by
  cases h : findJob db preR.job_id with
  | none =>
      rw [separate_stems_not_found fe ps h]
      exact separate_stems_not_found fe ps h
  | some j =>
      by_cases hc : preR.processed_file = ""
          ∨ fe preR.processed_file = false
      · rw [separate_stems_no_file h hc]
        dsimp only
        have h2 : findJob (updateJob db preR.job_id
            (fun x => setErr Stage.stem_separation
                ("Processed audio file not found: " ++ preR.processed_file)
                (setStep Stage.stem_separation x))) preR.job_id
            = some (setErr Stage.stem_separation
                ("Processed audio file not found: " ++ preR.processed_file)
                (setStep Stage.stem_separation j)) := by
          rw [findJob_updateJob_self, h]; rfl
        rw [separate_stems_no_file h2 hc, updateJob_updateJob]
        rfl
      · push_neg at hc
        obtain ⟨hne, hex⟩ := hc
        simp only [ne_eq, Bool.not_eq_false] at hex
        by_cases hskip : j.use_stem_separation.getD false = false
        · rw [separate_stems_skip h hne hex hskip]
          dsimp only
          have h2 : findJob (updateJob db preR.job_id
              (fun x => setStem StemResults.skipped
                          (setStep Stage.stem_separation x))) preR.job_id
              = some (setStem StemResults.skipped
                        (setStep Stage.stem_separation j)) := by
            rw [findJob_updateJob_self, h]; rfl
          rw [separate_stems_skip h2 hne hex hskip, updateJob_updateJob]
          rfl
        · simp only [ne_eq, Bool.not_eq_false] at hskip
          cases hp : ps (j.stem_model.getD "spleeter:4stems")
              preR.processed_file
              (UPLOAD_FOLDER ++ "/" ++ preR.job_id ++ "/stems") with
          | error e =>
              rw [separate_stems_fail h hne hex hskip hp]
              dsimp only
              have h2 : findJob (updateJob db preR.job_id
                  (fun x => setErr Stage.stem_separation e
                              (setStep Stage.stem_separation x)))
                  preR.job_id
                  = some (setErr Stage.stem_separation e
                            (setStep Stage.stem_separation j)) := by
                rw [findJob_updateJob_self, h]; rfl
              rw [separate_stems_fail h2 hne hex hskip hp,
                  updateJob_updateJob]
              rfl
          | ok m =>
              rw [separate_stems_separated h hne hex hskip hp]
              dsimp only
              have h2 : findJob (updateJob db preR.job_id
                  (fun x => setStem (StemResults.separated m)
                              (setStep Stage.stem_separation x)))
                  preR.job_id
                  = some (setStem (StemResults.separated m)
                            (setStep Stage.stem_separation j)) := by
                rw [findJob_updateJob_self, h]; rfl
              rw [separate_stems_separated h2 hne hex hskip hp,
                  updateJob_updateJob]
              rfl

theorem extract_features_idem
    (fe : String → Bool) (ex : String → Except String FeatureData)
    (db : Store) (stemR : StemRet) :
    extract_features fe ex (extract_features fe ex db stemR).1 stemR
      = extract_features fe ex db stemR := by
  cases h : findJob db stemR.job_id with
  | none =>
      rw [extract_features_not_found fe ex h]
      exact extract_features_not_found fe ex h
  | some j =>
      by_cases hc : stemR.file_to_process = ""
          ∨ fe stemR.file_to_process = false
      · rw [extract_features_no_file h hc]
        dsimp only
        have h2 : findJob (updateJob db stemR.job_id
            (fun x => setErr Stage.feature_extraction
                ("Audio file not found: " ++ stemR.file_to_process)
                (setStep Stage.feature_extraction x))) stemR.job_id
            = some (setErr Stage.feature_extraction
                ("Audio file not found: " ++ stemR.file_to_process)
                (setStep Stage.feature_extraction j)) := by
          rw [findJob_updateJob_self, h]; rfl
        rw [extract_features_no_file h2 hc, updateJob_updateJob]
        rfl
      · push_neg at hc
        obtain ⟨hne, hex⟩ := hc
        simp only [ne_eq, Bool.not_eq_false] at hex
        cases hx : ex stemR.file_to_process with
        | error e =>
            rw [extract_features_fail h hne hex hx]
            dsimp only
            have h2 : findJob (updateJob db stemR.job_id
                (fun x => setErr Stage.feature_extraction e
                            (setStep Stage.feature_extraction x)))
                stemR.job_id
                = some (setErr Stage.feature_extraction e
                          (setStep Stage.feature_extraction j)) := by
              rw [findJob_updateJob_self, h]; rfl
            rw [extract_features_fail h2 hne hex hx, updateJob_updateJob]
            rfl
        | ok fd =>
            rw [extract_features_ok h hne hex hx]
            dsimp only
            have h2 : findJob (updateJob db stemR.job_id
                (fun x => setFeat
                    { features_file := UPLOAD_FOLDER ++ "/" ++ stemR.job_id
                        ++ "/features/" ++ basename stemR.file_to_process
                        ++ "_features.npz",
                      onset_times := fd.onset_times, tempo := fd.tempo,
                      beat_times := fd.beat_times, key := fd.key,
                      scale := fd.scale, is_polyphonic := fd.is_polyphonic,
                      stem_name := stemR.stem_name }
                    (setStep Stage.feature_extraction x))) stemR.job_id
                = some (setFeat
                    { features_file := UPLOAD_FOLDER ++ "/" ++ stemR.job_id
                        ++ "/features/" ++ basename stemR.file_to_process
                        ++ "_features.npz",
                      onset_times := fd.onset_times, tempo := fd.tempo,
                      beat_times := fd.beat_times, key := fd.key,
                      scale := fd.scale, is_polyphonic := fd.is_polyphonic,
                      stem_name := stemR.stem_name }
                    (setStep Stage.feature_extraction j)) := by
              rw [findJob_updateJob_self, h]; rfl
            rw [extract_features_ok h2 hne hex hx, updateJob_updateJob]
            rfl

theorem map_to_notes_idem
    (mf : String → FeatRet → Except String NoteMappingResults)
    (db : Store) (featR : FeatRet) :
    map_to_notes mf (map_to_notes mf db featR).1 featR
      = map_to_notes mf db featR := by
  cases h : findJob db featR.job_id with
  | none =>
      rw [map_to_notes_not_found mf h]
      exact map_to_notes_not_found mf h
  | some j =>
      cases hm : mf (j.instrument_type.getD "bass") featR with
      | error e =>
          rw [map_to_notes_fail h hm]
          dsimp only
          have h2 : findJob (updateJob db featR.job_id
              (fun x => setErr Stage.note_mapping e
                          (setStep Stage.note_mapping x))) featR.job_id
              = some (setErr Stage.note_mapping e
                        (setStep Stage.note_mapping j)) := by
            rw [findJob_updateJob_self, h]; rfl
          rw [map_to_notes_fail h2 hm, updateJob_updateJob]
          rfl
      | ok nm =>
          rw [map_to_notes_ok h hm]
          dsimp only
          have h2 : findJob (updateJob db featR.job_id
              (fun x => setNotes nm (setStep Stage.note_mapping x)))
              featR.job_id
              = some (setNotes nm (setStep Stage.note_mapping j)) := by
            rw [findJob_updateJob_self, h]; rfl
          rw [map_to_notes_ok h2 hm, updateJob_updateJob]
          rfl

theorem format_output_idem
    (fo : NoteRet → Except String OutputResults)
    (db : Store) (noteR : NoteRet) :
    format_output fo (format_output fo db noteR).1 noteR
      = format_output fo db noteR := by
  cases h : findJob db noteR.job_id with
  | none =>
      rw [format_output_not_found fo h]
      exact format_output_not_found fo h
  | some j =>
      cases hf : fo noteR with
      | error e =>
          rw [format_output_fail h hf]
          dsimp only
          have h2 : findJob (updateJob db noteR.job_id
              (fun x => setErr Stage.output_formatting e
                          (setStep Stage.output_formatting x))) noteR.job_id
              = some (setErr Stage.output_formatting e
                        (setStep Stage.output_formatting j)) := by
            rw [findJob_updateJob_self, h]; rfl
          rw [format_output_fail h2 hf, updateJob_updateJob]
          rfl
      | ok o =>
          rw [format_output_ok h hf]
          dsimp only
          have h2 : findJob (updateJob db noteR.job_id
              (fun x => setOut o (setStep Stage.output_formatting x)))
              noteR.job_id
              = some (setOut o (setStep Stage.output_formatting j)) := by
            rw [findJob_updateJob_self, h]; rfl
          rw [format_output_ok h2 hf, updateJob_updateJob]
          rfl

theorem preprocess_audio_ok_shape
    {pa : String → String → Except String PreprocResults}
    {db db' : Store} {id fp : String} {r : PreRet}
    (h : preprocess_audio pa db id fp = (db', Except.ok r)) :
    ∃ j u, findJob db id = some j ∧ db' = updateJob db id u
      ∧ (∀ x, (u x).progress = some 20) ∧ r.job_id = id := by
  cases hf : findJob db id with
  | none =>
      rw [preprocess_audio_not_found pa fp hf] at h
      simp [Prod.ext_iff] at h
  | some j =>
      cases hp : pa fp (UPLOAD_FOLDER ++ "/" ++ id) with
      | error e =>
          rw [preprocess_audio_fail hf hp] at h
          simp [Prod.ext_iff] at h
      | ok pr =>
          rw [preprocess_audio_ok hf hp, Prod.mk.injEq] at h
          obtain ⟨h1, h2⟩ := h
          injection h2 with h3
          refine ⟨j, _, rfl, h1.symm, fun x => rfl, ?_⟩
          rw [← h3]

theorem separate_stems_ok_shape
    {fe : String → Bool}
    {ps : String → String → String → Except String StemMetadata}
    {db db' : Store} {preR : PreRet} {r : StemRet}
    (h : separate_stems fe ps db preR = (db', Except.ok r)) :
    ∃ j u, findJob db preR.job_id = some j
      ∧ db' = updateJob db preR.job_id u
      ∧ (∀ x, (u x).progress = some 40) ∧ r.job_id = preR.job_id := by
  cases hf : findJob db preR.job_id with
  | none =>
      rw [separate_stems_not_found fe ps hf] at h
      simp [Prod.ext_iff] at h
  | some j =>
      by_cases hc : preR.processed_file = ""
          ∨ fe preR.processed_file = false
      · rw [separate_stems_no_file hf hc] at h
        simp [Prod.ext_iff] at h
      · push_neg at hc
        obtain ⟨hne, hex⟩ := hc
        simp only [ne_eq, Bool.not_eq_false] at hex
        by_cases hskip : j.use_stem_separation.getD false = false
        · rw [separate_stems_skip hf hne hex hskip, Prod.mk.injEq] at h
          obtain ⟨h1, h2⟩ := h
          injection h2 with h3
          refine ⟨j, _, rfl, h1.symm, fun x => rfl, ?_⟩
          rw [← h3]
        · simp only [ne_eq, Bool.not_eq_false] at hskip
          cases hp : ps (j.stem_model.getD "spleeter:4stems")
              preR.processed_file
              (UPLOAD_FOLDER ++ "/" ++ preR.job_id ++ "/stems") with
          | error e =>
              rw [separate_stems_fail hf hne hex hskip hp] at h
              simp [Prod.ext_iff] at h
          | ok m =>
              rw [separate_stems_separated hf hne hex hskip hp,
                  Prod.mk.injEq] at h
              obtain ⟨h1, h2⟩ := h
              refine ⟨j, _, rfl, h1.symm, fun x => rfl, ?_⟩
              split at h2 <;>
                · injection h2 with h3
                  rw [← h3]

theorem extract_features_ok_shape
    {fe : String → Bool} {ex : String → Except String FeatureData}
    {db db' : Store} {stemR : StemRet} {r : FeatRet}
    (h : extract_features fe ex db stemR = (db', Except.ok r)) :
    ∃ j u, findJob db stemR.job_id = some j
      ∧ db' = updateJob db stemR.job_id u
      ∧ (∀ x, (u x).progress = some 60) ∧ r.job_id = stemR.job_id := by
  cases hf : findJob db stemR.job_id with
  | none =>
      rw [extract_features_not_found fe ex hf] at h
      simp [Prod.ext_iff] at h
  | some j =>
      by_cases hc : stemR.file_to_process = ""
          ∨ fe stemR.file_to_process = false
      · rw [extract_features_no_file hf hc] at h
        simp [Prod.ext_iff] at h
      · push_neg at hc
        obtain ⟨hne, hex⟩ := hc
        simp only [ne_eq, Bool.not_eq_false] at hex
        cases hx : ex stemR.file_to_process with
        | error e =>
            rw [extract_features_fail hf hne hex hx] at h
            simp [Prod.ext_iff] at h
        | ok fd =>
            rw [extract_features_ok hf hne hex hx, Prod.mk.injEq] at h
            obtain ⟨h1, h2⟩ := h
            injection h2 with h3
            refine ⟨j, _, rfl, h1.symm, fun x => rfl, ?_⟩
            rw [← h3]

theorem map_to_notes_ok_shape
    {mf : String → FeatRet → Except String NoteMappingResults}
    {db db' : Store} {featR : FeatRet} {r : NoteRet}
    (h : map_to_notes mf db featR = (db', Except.ok r)) :
    ∃ j u, findJob db featR.job_id = some j
      ∧ db' = updateJob db featR.job_id u
      ∧ (∀ x, (u x).progress = some 80) ∧ r.job_id = featR.job_id := by
  cases hf : findJob db featR.job_id with
  | none =>
      rw [map_to_notes_not_found mf hf] at h
      simp [Prod.ext_iff] at h
  | some j =>
      cases hm : mf (j.instrument_type.getD "bass") featR with
      | error e =>
          rw [map_to_notes_fail hf hm] at h
          simp [Prod.ext_iff] at h
      | ok nm =>
          rw [map_to_notes_ok hf hm, Prod.mk.injEq] at h
          obtain ⟨h1, h2⟩ := h
          injection h2 with h3
          refine ⟨j, _, rfl, h1.symm, fun x => rfl, ?_⟩
          rw [← h3]

theorem format_output_ok_shape
    {fo : NoteRet → Except String OutputResults}
    {db db' : Store} {noteR : NoteRet} {r : OutRet}
    (h : format_output fo db noteR = (db', Except.ok r)) :
    ∃ j u, findJob db noteR.job_id = some j
      ∧ db' = updateJob db noteR.job_id u
      ∧ (∀ x, (u x).progress = some 100
              ∧ (u x).status = JobStatus.completed)
      ∧ r.job_id = noteR.job_id := by
  cases hf : findJob db noteR.job_id with
  | none =>
      rw [format_output_not_found fo hf] at h
      simp [Prod.ext_iff] at h
  | some j =>
      cases hff : fo noteR with
      | error e =>
          rw [format_output_fail hf hff] at h
          simp [Prod.ext_iff] at h
      | ok o =>
          rw [format_output_ok hf hff, Prod.mk.injEq] at h
          obtain ⟨h1, h2⟩ := h
          injection h2 with h3
          refine ⟨j, _, rfl, h1.symm, fun x => ⟨rfl, rfl⟩, ?_⟩
          rw [← h3]

/-- C3: for every job id, stage and stage result, delivering the same stage
completion twice with identical arguments (the same job store inputs and the
same deterministic external collaborators) leaves the job store, and the
payload handed to the chain, exactly as a single delivery does — for each
of the five stage-completion handlers. -/
theorem stage_completion_idempotent :
    (∀ (pa : String → String → Except String PreprocResults)
       (db : Store) (id fp : String),
        preprocess_audio pa (preprocess_audio pa db id fp).1 id fp
          = preprocess_audio pa db id fp)
    ∧ (∀ (fe : String → Bool)
         (ps : String → String → String → Except String StemMetadata)
         (db : Store) (preR : PreRet),
        separate_stems fe ps (separate_stems fe ps db preR).1 preR
          = separate_stems fe ps db preR)
    ∧ (∀ (fe : String → Bool) (ex : String → Except String FeatureData)
         (db : Store) (stemR : StemRet),
        extract_features fe ex (extract_features fe ex db stemR).1 stemR
          = extract_features fe ex db stemR)
    ∧ (∀ (mf : String → FeatRet → Except String NoteMappingResults)
         (db : Store) (featR : FeatRet),
        map_to_notes mf (map_to_notes mf db featR).1 featR
          = map_to_notes mf db featR)
    ∧ (∀ (fo : NoteRet → Except String OutputResults)
         (db : Store) (noteR : NoteRet),
        format_output fo (format_output fo db noteR).1 noteR
          = format_output fo db noteR) :=
  ⟨preprocess_audio_idem, separate_stems_idem, extract_features_idem,
   map_to_notes_idem, format_output_idem⟩

/-- C5: whenever a stage task completes successfully, the job's progress
equals that stage's fixed checkpoint: 20 after preprocessing, 40 after stem
separation, 60 after feature extraction, 80 after note mapping and 100
after output formatting. -/
theorem progress_equals_stage_checkpoint :
    (∀ (pa : String → String → Except String PreprocResults)
       (db : Store) (id fp : String) (r : PreRet),
        (preprocess_audio pa db id fp).2 = Except.ok r →
        getProgress (preprocess_audio pa db id fp).1 id = some 20)
    ∧ (∀ (fe : String → Bool)
         (ps : String → String → String → Except String StemMetadata)
         (db : Store) (preR : PreRet) (r : StemRet),
        (separate_stems fe ps db preR).2 = Except.ok r →
        getProgress (separate_stems fe ps db preR).1 preR.job_id
          = some 40)
    ∧ (∀ (fe : String → Bool) (ex : String → Except String FeatureData)
         (db : Store) (stemR : StemRet) (r : FeatRet),
        (extract_features fe ex db stemR).2 = Except.ok r →
        getProgress (extract_features fe ex db stemR).1 stemR.job_id
          = some 60)
    ∧ (∀ (mf : String → FeatRet → Except String NoteMappingResults)
         (db : Store) (featR : FeatRet) (r : NoteRet),
        (map_to_notes mf db featR).2 = Except.ok r →
        getProgress (map_to_notes mf db featR).1 featR.job_id = some 80)
    ∧ (∀ (fo : NoteRet → Except String OutputResults)
         (db : Store) (noteR : NoteRet) (r : OutRet),
        (format_output fo db noteR).2 = Except.ok r →
        getProgress (format_output fo db noteR).1 noteR.job_id
          = some 100) := by
  refine ⟨?_, ?_, ?_, ?_, ?_⟩
  · intro pa db id fp r h
    have h' : preprocess_audio pa db id fp
        = ((preprocess_audio pa db id fp).1, Except.ok r) := by
      rw [← h, Prod.mk.eta]
    obtain ⟨j, u, hf, hdb, hu, _⟩ := preprocess_audio_ok_shape h'
    rw [hdb]
    simp [getProgress, findJob_updateJob_self, hf, hu j]
  · intro fe ps db preR r h
    have h' : separate_stems fe ps db preR
        = ((separate_stems fe ps db preR).1, Except.ok r) := by
      rw [← h, Prod.mk.eta]
    obtain ⟨j, u, hf, hdb, hu, _⟩ := separate_stems_ok_shape h'
    rw [hdb]
    simp [getProgress, findJob_updateJob_self, hf, hu j]
  · intro fe ex db stemR r h
    have h' : extract_features fe ex db stemR
        = ((extract_features fe ex db stemR).1, Except.ok r) := by
      rw [← h, Prod.mk.eta]
    obtain ⟨j, u, hf, hdb, hu, _⟩ := extract_features_ok_shape h'
    rw [hdb]
    simp [getProgress, findJob_updateJob_self, hf, hu j]
  · intro mf db featR r h
    have h' : map_to_notes mf db featR
        = ((map_to_notes mf db featR).1, Except.ok r) := by
      rw [← h, Prod.mk.eta]
    obtain ⟨j, u, hf, hdb, hu, _⟩ := map_to_notes_ok_shape h'
    rw [hdb]
    simp [getProgress, findJob_updateJob_self, hf, hu j]
  · intro fo db noteR r h
    have h' : format_output fo db noteR
        = ((format_output fo db noteR).1, Except.ok r) := by
      rw [← h, Prod.mk.eta]
    obtain ⟨j, u, hf, hdb, hu, _⟩ := format_output_ok_shape h'
    rw [hdb]
    simp [getProgress, findJob_updateJob_self, hf, (hu j).1]

/-- Witness for C5: the checkpoints observed on a concrete in-order run of
the five deliveries for job "j". -/
theorem progress_equals_stage_checkpoint_witness :
    getProgress chainDb1 "j" = some 20
    ∧ getProgress chainDb2 "j" = some 40
    ∧ getProgress chainDb3 "j" = some 60
    ∧ getProgress chainDb4 "j" = some 80
    ∧ getProgress chainDb5 "j" = some 100 := by
  obtain ⟨t1, t2, t3, t4, t5⟩ := progress_equals_stage_checkpoint
  exact ⟨t1 paOk store0 "j" "a.wav" chainR1 (by rfl),
         t2 allFiles psSkip chainDb1 chainR1 chainR2 (by rfl),
         t3 allFiles exOk chainDb2 chainR2 chainR3 (by rfl),
         t4 mfOk chainDb3 chainR3 chainR4 (by rfl),
         t5 foOk chainDb4 chainR4 chainR5 (by rfl)⟩

/-- C6 counterexample: a concrete delivery sequence on job "j" —
preprocessing, stem separation, feature extraction, note mapping (progress
80), then a duplicate re-delivery of the feature-extraction completion —
after which progress has dropped from 80 back to 60.  Progress is therefore
not monotonically non-decreasing across sequences of stage-completion
calls. -/
theorem progress_decreases_on_duplicate_delivery :
    getProgress chainDb4 "j" = some 80
    ∧ getProgress (extract_features allFiles exOk chainDb4 chainR2).1 "j"
        = some 60
    ∧ 60 < 80 := by
  refine ⟨by rfl, by rfl, by decide⟩

/-- C6 amended: along an in-order run in which each stage is delivered once
and succeeds, the observed progress trace is exactly the checkpoint
sequence 20, 40, 60, 80, 100, which is non-decreasing; only duplicate or
out-of-order re-deliveries can lower progress. -/
theorem progress_monotone_in_order
    {pa : String → String → Except String PreprocResults}
    {fe : String → Bool}
    {ps : String → String → String → Except String StemMetadata}
    {ex : String → Except String FeatureData}
    {mf : String → FeatRet → Except String NoteMappingResults}
    {fo : NoteRet → Except String OutputResults}
    {db db1 db2 db3 db4 db5 : Store} {id fp : String}
    {r1 : PreRet} {r2 : StemRet} {r3 : FeatRet} {r4 : NoteRet}
    {r5 : OutRet}
    (h1 : preprocess_audio pa db id fp = (db1, Except.ok r1))
    (h2 : separate_stems fe ps db1 r1 = (db2, Except.ok r2))
    (h3 : extract_features fe ex db2 r2 = (db3, Except.ok r3))
    (h4 : map_to_notes mf db3 r3 = (db4, Except.ok r4))
    (h5 : format_output fo db4 r4 = (db5, Except.ok r5)) :
    [getProgress db1 id, getProgress db2 id, getProgress db3 id,
     getProgress db4 id, getProgress db5 id]
      = [some 20, some 40, some 60, some 80, some 100]
    ∧ List.Chain' (fun a b => a ≤ b) [20, 40, 60, 80, 100] := by
  obtain ⟨j1, u1, hf1, hd1, hu1, hi1⟩ := preprocess_audio_ok_shape h1
  obtain ⟨j2, u2, hf2, hd2, hu2, hi2⟩ := separate_stems_ok_shape h2
  obtain ⟨j3, u3, hf3, hd3, hu3, hi3⟩ := extract_features_ok_shape h3
  obtain ⟨j4, u4, hf4, hd4, hu4, hi4⟩ := map_to_notes_ok_shape h4
  obtain ⟨j5, u5, hf5, hd5, hu5, hi5⟩ := format_output_ok_shape h5
  rw [hi1] at hf2 hd2
  rw [hi1] at hi2
  rw [hi2] at hf3 hd3
  rw [hi2] at hi3
  rw [hi3] at hf4 hd4
  rw [hi3] at hi4
  rw [hi4] at hf5 hd5
  refine ⟨?_, by simp [List.chain'_cons]⟩
  rw [hd1, hd2, hd3, hd4, hd5]
  simp [getProgress, findJob_updateJob_self, hf1, hf2, hf3, hf4, hf5,
        hu1 j1, hu2 j2, hu3 j3, hu4 j4, (hu5 j5).1]

/-- Witness for the amended C6 on the concrete in-order run of job "j". -/
theorem progress_monotone_in_order_witness :
    [getProgress chainDb1 "j", getProgress chainDb2 "j",
     getProgress chainDb3 "j", getProgress chainDb4 "j",
     getProgress chainDb5 "j"]
      = [some 20, some 40, some 60, some 80, some 100]
    ∧ List.Chain' (fun a b => a ≤ b) [20, 40, 60, 80, 100] := by
  have h1 : preprocess_audio paOk store0 "j" "a.wav"
      = (chainDb1, Except.ok chainR1) := by rfl
  have h2 : separate_stems allFiles psSkip chainDb1 chainR1
      = (chainDb2, Except.ok chainR2) := by rfl
  have h3 : extract_features allFiles exOk chainDb2 chainR2
      = (chainDb3, Except.ok chainR3) := by rfl
  have h4 : map_to_notes mfOk chainDb3 chainR3
      = (chainDb4, Except.ok chainR4) := by rfl
  have h5 : format_output foOk chainDb4 chainR4
      = (chainDb5, Except.ok chainR5) := by rfl
  exact progress_monotone_in_order h1 h2 h3 h4 h5

/-- C4 counterexample: a stage-completion delivery whose stage differs from
the job's current stage is not a no-op.  Job "j" sits at note mapping with
progress 80; a (stale) feature-extraction completion arrives and the task
rewrites status, current_step, progress and the feature stage result. -/
theorem stale_delivery_mutates_job :
    jobAtNoteMapping.current_step = some Stage.note_mapping
    ∧ jobAtNoteMapping.progress = some 80
    ∧ (findJob (extract_features allFiles exOk
          [("j", jobAtNoteMapping)] chainR2).1 "j").map Job.current_step
        = some (some Stage.feature_extraction)
    ∧ (findJob (extract_features allFiles exOk
          [("j", jobAtNoteMapping)] chainR2).1 "j").map Job.progress
        = some (some 60) := by
  refine ⟨rfl, rfl, by rfl, by rfl⟩

/-- C4 amended: the stage tasks perform no staleness check, so a delivery
whose stage differs from the job's current stage is processed in full: the
cited handler (`map_to_notes`, likewise its four siblings) sets status to
PROCESSING, overwrites current_step with the delivered stage, overwrites
that stage's recorded result, and resets progress to the stage's
checkpoint. -/
theorem stale_delivery_reprocesses_stage
    {mf : String → FeatRet → Except String NoteMappingResults}
    {db : Store} {featR : FeatRet} {j : Job} {nm : NoteMappingResults}
    (h : findJob db featR.job_id = some j)
    (_hstale : j.current_step ≠ some Stage.note_mapping)
    (hm : mf (j.instrument_type.getD "bass") featR = Except.ok nm) :
    (findJob (map_to_notes mf db featR).1 featR.job_id).map Job.status
      = some JobStatus.processing
    ∧ (findJob (map_to_notes mf db featR).1 featR.job_id).map
        Job.current_step = some (some Stage.note_mapping)
    ∧ (findJob (map_to_notes mf db featR).1 featR.job_id).map
        Job.note_mapping_results = some (some nm)
    ∧ (findJob (map_to_notes mf db featR).1 featR.job_id).map
        Job.progress = some (some 80) := by
  rw [map_to_notes_ok h hm]
  simp [findJob_updateJob_self, h, setNotes, setStep]

/-- Witness for the amended C4: a completed job at output formatting
receives a stale note-mapping completion and is rewritten. -/
theorem stale_delivery_reprocesses_stage_witness :
    (findJob (map_to_notes mfOk
        [("j", { jobAtNoteMapping with
                   current_step := some Stage.output_formatting })]
        chainR3).1 "j").map Job.status = some JobStatus.processing
    ∧ (findJob (map_to_notes mfOk
        [("j", { jobAtNoteMapping with
                   current_step := some Stage.output_formatting })]
        chainR3).1 "j").map Job.current_step
        = some (some Stage.note_mapping)
    ∧ (findJob (map_to_notes mfOk
        [("j", { jobAtNoteMapping with
                   current_step := some Stage.output_formatting })]
        chainR3).1 "j").map Job.note_mapping_results
        = some (some sampleNMR)
    ∧ (findJob (map_to_notes mfOk
        [("j", { jobAtNoteMapping with
                   current_step := some Stage.output_formatting })]
        chainR3).1 "j").map Job.progress = some (some 80) := by
  exact stale_delivery_reprocesses_stage (by rfl) (by decide) (by rfl)

/-- C7: when the stem-separation skip predicate holds (the job did not
request stem separation), the stage forwards its input audio unchanged to
the next stage with `is_stem = false` and the same job id, records the skip
marker with the 40% checkpoint, and never consults the separation
collaborator: the outcome is identical under any two separator oracles. -/
theorem skip_forwards_input_unchanged
    {fe : String → Bool}
    (ps ps' : String → String → String → Except String StemMetadata)
    {db : Store} {preR : PreRet} {j : Job}
    (h : findJob db preR.job_id = some j)
    (hne : preR.processed_file ≠ "")
    (hex : fe preR.processed_file = true)
    (hskip : j.use_stem_separation.getD false = false) :
    separate_stems fe ps db preR = separate_stems fe ps' db preR
    ∧ (separate_stems fe ps db preR).2
        = Except.ok { job_id := preR.job_id,
                      file_to_process := preR.processed_file,
                      sample_rate := preR.sample_rate,
                      is_stem := false, stem_name := none }
    ∧ (findJob (separate_stems fe ps db preR).1 preR.job_id).map
        Job.stem_results = some (some StemResults.skipped)
    ∧ (findJob (separate_stems fe ps db preR).1 preR.job_id).map
        Job.progress = some (some 40) := by
  have e2 : separate_stems fe ps' db preR
      = (updateJob db preR.job_id
           (fun x => setStem StemResults.skipped
                       (setStep Stage.stem_separation x)),
         Except.ok { job_id := preR.job_id,
                     file_to_process := preR.processed_file,
                     sample_rate := preR.sample_rate,
                     is_stem := false, stem_name := none }) :=
    separate_stems_skip h hne hex hskip
  rw [separate_stems_skip h hne hex hskip, e2]
  simp [findJob_updateJob_self, h, setStem, setStep]

/-- Witness for C7: the fresh job "j" with separation unrequested, under
two different separator oracles. -/
theorem skip_forwards_input_unchanged_witness :
    separate_stems allFiles psSkip store0 chainR1
      = separate_stems allFiles
          (fun _ _ _ => Except.ok { original_path := "x",
                                    stems_dir := "y", stem_paths := [] })
          store0 chainR1
    ∧ (separate_stems allFiles psSkip store0 chainR1).2
        = Except.ok { job_id := "j", file_to_process := "proc.wav",
                      sample_rate := 44100, is_stem := false,
                      stem_name := none }
    ∧ (findJob (separate_stems allFiles psSkip store0 chainR1).1 "j").map
        Job.stem_results = some (some StemResults.skipped)
    ∧ (findJob (separate_stems allFiles psSkip store0 chainR1).1 "j").map
        Job.progress = some (some 40) := by
  exact skip_forwards_input_unchanged psSkip
    (fun _ _ _ => Except.ok { original_path := "x", stems_dir := "y",
                              stem_paths := [] })
    (by rfl) (by decide) (by rfl) (by rfl)

/-- C8: whenever a stage's external collaborator fails, the task sets the
job's status to ERROR together with an error record tagged with the
originating stage and the failure message, retains every previously
recorded stage result (and the progress value) unchanged, and re-raises the
failure — the returned error breaks the task chain, so no further stage is
dispatched and nothing retries the job in place. -/
theorem stage_failure_terminal_and_retaining :
    (∀ (pa : String → String → Except String PreprocResults)
       (db : Store) (id fp : String) (j : Job) (e : String),
        findJob db id = some j →
        pa fp (UPLOAD_FOLDER ++ "/" ++ id) = Except.error e →
        errorOutcome (preprocess_audio pa db id fp).1 id
            Stage.audio_preprocessing e j
          ∧ (preprocess_audio pa db id fp).2 = Except.error e)
    ∧ (∀ (fe : String → Bool)
         (ps : String → String → String → Except String StemMetadata)
         (db : Store) (preR : PreRet) (j : Job) (e : String),
        findJob db preR.job_id = some j →
        preR.processed_file ≠ "" → fe preR.processed_file = true →
        j.use_stem_separation.getD false = true →
        ps (j.stem_model.getD "spleeter:4stems") preR.processed_file
            (UPLOAD_FOLDER ++ "/" ++ preR.job_id ++ "/stems")
          = Except.error e →
        errorOutcome (separate_stems fe ps db preR).1 preR.job_id
            Stage.stem_separation e j
          ∧ (separate_stems fe ps db preR).2 = Except.error e)
    ∧ (∀ (fe : String → Bool) (ex : String → Except String FeatureData)
         (db : Store) (stemR : StemRet) (j : Job) (e : String),
        findJob db stemR.job_id = some j →
        stemR.file_to_process ≠ "" → fe stemR.file_to_process = true →
        ex stemR.file_to_process = Except.error e →
        errorOutcome (extract_features fe ex db stemR).1 stemR.job_id
            Stage.feature_extraction e j
          ∧ (extract_features fe ex db stemR).2 = Except.error e)
    ∧ (∀ (mf : String → FeatRet → Except String NoteMappingResults)
         (db : Store) (featR : FeatRet) (j : Job) (e : String),
        findJob db featR.job_id = some j →
        mf (j.instrument_type.getD "bass") featR = Except.error e →
        errorOutcome (map_to_notes mf db featR).1 featR.job_id
            Stage.note_mapping e j
          ∧ (map_to_notes mf db featR).2 = Except.error e)
    ∧ (∀ (fo : NoteRet → Except String OutputResults)
         (db : Store) (noteR : NoteRet) (j : Job) (e : String),
        findJob db noteR.job_id = some j →
        fo noteR = Except.error e →
        errorOutcome (format_output fo db noteR).1 noteR.job_id
            Stage.output_formatting e j
          ∧ (format_output fo db noteR).2 = Except.error e) := by
  refine ⟨?_, ?_, ?_, ?_, ?_⟩
  · intro pa db id fp j e h hp
    rw [preprocess_audio_fail h hp]
    simp [errorOutcome, findJob_updateJob_self, h, setErr, setStep]
  · intro fe ps db preR j e h hne hex hsep hp
    rw [separate_stems_fail h hne hex hsep hp]
    simp [errorOutcome, findJob_updateJob_self, h, setErr, setStep]
  · intro fe ex db stemR j e h hne hex hx
    rw [extract_features_fail h hne hex hx]
    simp [errorOutcome, findJob_updateJob_self, h, setErr, setStep]
  · intro mf db featR j e h hm
    rw [map_to_notes_fail h hm]
    simp [errorOutcome, findJob_updateJob_self, h, setErr, setStep]
  · intro fo db noteR j e h hf
    rw [format_output_fail h hf]
    simp [errorOutcome, findJob_updateJob_self, h, setErr, setStep]

/-- Witness for C8: concrete failing deliveries for each of the five
stages, each against a job that already carries earlier stage results. -/
theorem stage_failure_terminal_and_retaining_witness :
    (errorOutcome (preprocess_audio (fun _ _ => Except.error "boom")
        [("j", baseJob)] "j" "a.wav").1 "j"
        Stage.audio_preprocessing "boom" baseJob
      ∧ (preprocess_audio (fun _ _ => Except.error "boom")
          [("j", baseJob)] "j" "a.wav").2 = Except.error "boom")
    ∧ (errorOutcome (separate_stems allFiles
          (fun _ _ _ => Except.error "model unavailable")
          [("j", { baseJob with use_stem_separation := some true,
                                preprocessing_results := some samplePre })]
          chainR1).1 "j"
          Stage.stem_separation "model unavailable"
          { baseJob with use_stem_separation := some true,
                         preprocessing_results := some samplePre }
      ∧ (separate_stems allFiles
          (fun _ _ _ => Except.error "model unavailable")
          [("j", { baseJob with use_stem_separation := some true,
                                preprocessing_results := some samplePre })]
          chainR1).2 = Except.error "model unavailable")
    ∧ (errorOutcome (extract_features allFiles
          (fun _ => Except.error "boom")
          [("j", jobAtNoteMapping)] chainR2).1 "j"
          Stage.feature_extraction "boom" jobAtNoteMapping
      ∧ (extract_features allFiles (fun _ => Except.error "boom")
          [("j", jobAtNoteMapping)] chainR2).2 = Except.error "boom")
    ∧ (errorOutcome (map_to_notes (fun _ _ => Except.error "boom")
          [("j", jobAtNoteMapping)] chainR3).1 "j"
          Stage.note_mapping "boom" jobAtNoteMapping
      ∧ (map_to_notes (fun _ _ => Except.error "boom")
          [("j", jobAtNoteMapping)] chainR3).2 = Except.error "boom")
    ∧ (errorOutcome (format_output (fun _ => Except.error "boom")
          [("j", jobAtNoteMapping)] chainR4).1 "j"
          Stage.output_formatting "boom" jobAtNoteMapping
      ∧ (format_output (fun _ => Except.error "boom")
          [("j", jobAtNoteMapping)] chainR4).2 = Except.error "boom") := by
  obtain ⟨t1, t2, t3, t4, t5⟩ := stage_failure_terminal_and_retaining
  refine ⟨t1 _ _ "j" "a.wav" baseJob "boom" (by rfl) (by rfl),
          t2 allFiles _ _ chainR1 _ "model unavailable"
            (by rfl) (by decide) (by rfl) (by rfl) (by rfl),
          t3 allFiles _ _ chainR2 jobAtNoteMapping "boom"
            (by rfl) (by decide) (by rfl) (by rfl),
          t4 _ _ chainR3 jobAtNoteMapping "boom" (by rfl) (by rfl),
          t5 _ _ chainR4 jobAtNoteMapping "boom" (by rfl) (by rfl)⟩

/-- C1 counterexample: COMPLETED is not terminal.  Job "j" is COMPLETED
with a stored result; its uploaded audio file has been deleted from disk;
a result retrieval then rewrites the record: status becomes ERROR and an
error_log is written. -/
theorem get_job_result_mutates_completed_job :
    completedJob.status = JobStatus.completed
    ∧ (findJob (get_job_result (fun _ => false)
          [("j", completedJob)] "j" "json").1 "j").map Job.status
        = some JobStatus.error
    ∧ (findJob (get_job_result (fun _ => false)
          [("j", completedJob)] "j" "json").1 "j").map Job.error_log
        = some (some ("Original audio file no longer exists: "
                        ++ basename completedJob.file_path)) := by
  refine ⟨rfl, by rfl, by rfl⟩

/-- C1 amended: the result endpoint leaves every job record — terminal or
not — unchanged as long as the job's recorded audio file still exists on
disk (or no path was recorded); when the file has been deleted it rewrites
even a COMPLETED job to ERROR, so COMPLETED and ERROR are not immutable. -/
theorem get_job_result_preserves_store_when_file_present
    (fe : String → Bool) {db : Store} {id : String} (fmt : String)
    {j : Job} (h : findJob db id = some j)
    (hfile : j.file_path = "" ∨ fe j.file_path = true) :
    (get_job_result fe db id fmt).1 = db := by
  simp only [get_job_result, h]
  have hcond : ¬(j.file_path ≠ "" ∧ fe j.file_path = false) := by
    rcases hfile with h2 | h2
    · exact fun hc => hc.1 h2
    · intro hc
      rw [h2] at hc
      exact absurd hc.2 (by simp)
  rw [if_neg hcond]
  by_cases hs : j.status ≠ JobStatus.completed
  · rw [if_pos hs]
  · rw [if_neg hs]
    cases hr : j.result with
    | none => rfl
    | some r =>
        dsimp only
        by_cases h1 : fmt = "json"
        · rw [if_pos h1]
        · rw [if_neg h1]
          by_cases h2 : fmt = "pdf"
          · rw [if_pos h2]
            cases r.pdf_path with
            | none => rfl
            | some p =>
                dsimp only
                by_cases h3 : fe p = true
                · rw [if_pos h3]
                · rw [if_neg h3]
          · rw [if_neg h2]
            by_cases h3 : fmt = "musicxml"
            · rw [if_pos h3]
              cases r.musicxml_path with
              | none => rfl
              | some p =>
                  dsimp only
                  by_cases h4 : fe p = true
                  · rw [if_pos h4]
                  · rw [if_neg h4]
            · rw [if_neg h3]

/-- Witness for the amended C1: retrieving the result of the COMPLETED job
while its audio file still exists leaves the store untouched. -/
theorem get_job_result_preserves_store_witness :
    (get_job_result allFiles [("j", completedJob)] "j" "json").1
      = [("j", completedJob)] :=
  get_job_result_preserves_store_when_file_present allFiles "json"
    (by rfl) (Or.inr rfl)

/-- C2 counterexample: stem separation yielding two usable stems creates no
child jobs.  The store still contains exactly the one original job id, and
the task continues the same job with a single selected stem (the
bass-targeted job gets the first available stem, "vocals"). -/
theorem no_child_jobs_on_multi_stem_separation :
    twoStems.stem_paths.length = 2
    ∧ jobIds (separate_stems allFiles (fun _ _ _ => Except.ok twoStems)
          [("j", fanJob)] chainR1).1 = ["j"]
    ∧ (separate_stems allFiles (fun _ _ _ => Except.ok twoStems)
          [("j", fanJob)] chainR1).2
        = Except.ok { job_id := "j", file_to_process := "v.wav",
                      sample_rate := 44100, is_stem := true,
                      stem_name := some "vocals" } := by
  refine ⟨rfl, by rfl, by rfl⟩

/-- C2 amended: when stem separation yields two or more usable stems, the
task performs no fan-out: the set of job ids in the store is unchanged (no
child jobs, no parent bookkeeping records), the same job's stem_results
holds the separator metadata with progress 40, and the task continues that
same job with the single instrument-matched stem (or the first available
one), returned with `is_stem = true`. -/
theorem multi_stem_separation_continues_same_job
    {fe : String → Bool}
    {ps : String → String → String → Except String StemMetadata}
    {db : Store} {preR : PreRet} {j : Job} {m : StemMetadata}
    (h : findJob db preR.job_id = some j)
    (hne : preR.processed_file ≠ "")
    (hex : fe preR.processed_file = true)
    (hsep : j.use_stem_separation.getD false = true)
    (hp : ps (j.stem_model.getD "spleeter:4stems") preR.processed_file
            (UPLOAD_FOLDER ++ "/" ++ preR.job_id ++ "/stems")
          = Except.ok m)
    (hlen : 2 ≤ m.stem_paths.length) :
    jobIds (separate_stems fe ps db preR).1 = jobIds db
    ∧ (findJob (separate_stems fe ps db preR).1 preR.job_id).map
        Job.stem_results = some (some (StemResults.separated m))
    ∧ (findJob (separate_stems fe ps db preR).1 preR.job_id).map
        Job.progress = some (some 40)
    ∧ ∃ best path, lookupStem m.stem_paths best = some path
        ∧ (separate_stems fe ps db preR).2
            = Except.ok { job_id := preR.job_id, file_to_process := path,
                          sample_rate := preR.sample_rate,
                          is_stem := true, stem_name := some best } := by
  rw [separate_stems_separated h hne hex hsep hp]
  refine ⟨by simp [jobIds_updateJob],
          by simp [findJob_updateJob_self, h, setStem, setStep],
          by simp [findJob_updateJob_self, h, setStem, setStep], ?_⟩
  by_cases hb : (lookupStem m.stem_paths
      (instrumentToStem (j.instrument_type.getD "bass")
        m.stem_paths)).isSome
  · obtain ⟨v, hv⟩ := Option.isSome_iff_exists.mp hb
    exact ⟨_, v, hv, by simp [hb, hv]⟩
  · cases hsp : m.stem_paths with
    | nil => rw [hsp] at hlen; simp at hlen
    | cons kv t =>
        rw [hsp] at hb
        refine ⟨kv.1, kv.2, by simp [lookupStem], ?_⟩
        dsimp only
        rw [if_neg hb]
        simp [lookupStem]

/-- Witness for the amended C2 on the concrete two-stem separation. -/
theorem multi_stem_separation_continues_same_job_witness :
    jobIds (separate_stems allFiles (fun _ _ _ => Except.ok twoStems)
        [("j", fanJob)] chainR1).1 = jobIds [("j", fanJob)]
    ∧ (findJob (separate_stems allFiles (fun _ _ _ => Except.ok twoStems)
          [("j", fanJob)] chainR1).1 "j").map Job.stem_results
        = some (some (StemResults.separated twoStems))
    ∧ (findJob (separate_stems allFiles (fun _ _ _ => Except.ok twoStems)
          [("j", fanJob)] chainR1).1 "j").map Job.progress
        = some (some 40)
    ∧ ∃ best path, lookupStem twoStems.stem_paths best = some path
        ∧ (separate_stems allFiles (fun _ _ _ => Except.ok twoStems)
              [("j", fanJob)] chainR1).2
            = Except.ok { job_id := "j", file_to_process := path,
                          sample_rate := 44100, is_stem := true,
                          stem_name := some best } := by
  exact multi_stem_separation_continues_same_job
    (by rfl) (by decide) (by rfl) (by rfl) (by rfl) (by decide)

theorem positionsAux_mem {pm : Int} {t : List Int} {i : Int}
    {p : Int × Int} (hp : p ∈ positionsAux pm t i) :
    i ≤ p.1 ∧ p.1 < i + t.length ∧ 0 ≤ p.2 ∧ p.2 ≤ 24 := by
  induction t generalizing i with
  | nil => simp [positionsAux] at hp
  | cons op rest ih =>
      simp only [positionsAux, List.mem_append] at hp
      rcases hp with hp | hp
      · by_cases hc : 0 ≤ pm - op ∧ pm - op ≤ 24
        · rw [if_pos hc] at hp
          simp only [List.mem_singleton] at hp
          subst hp
          refine ⟨le_refl _, ?_, hc.1, hc.2⟩
          simp only [List.length_cons]
          omega
        · rw [if_neg hc] at hp
          simp at hp
      · obtain ⟨h1, h2, h3, h4⟩ := ih hp
        refine ⟨by omega, ?_, h3, h4⟩
        simp only [List.length_cons]
        omega

theorem bestPositionAux_mem (count : Nat) (best : Int × Int)
    (l : List (Int × Int)) :
    bestPositionAux count best l = best ∨ bestPositionAux count best l ∈ l
    := by
  induction l generalizing best with
  | nil => left; rfl
  | cons p rest ih =>
      simp only [bestPositionAux]
      rcases ih (if positionScore count p < positionScore count best
                 then p else best) with h | h
      · rw [h]
        by_cases hc : positionScore count p < positionScore count best
        · rw [if_pos hc]
          right
          exact List.mem_cons_self p rest
        · rw [if_neg hc]
          left
          rfl
      · right
        exact List.mem_cons_of_mem p h

theorem fallbackAux_bounds (pm : Int) (t : List Int) (n : Nat) :
    ∀ (i cs cf : Int) (md : Option Int),
      0 ≤ cs → cs < n → (cf = 0 ∨ cf = 24) →
      i + t.length ≤ n → 0 ≤ i →
      0 ≤ (fallbackAux pm t i (cs, cf, md)).1
      ∧ (fallbackAux pm t i (cs, cf, md)).1 < n
      ∧ ((fallbackAux pm t i (cs, cf, md)).2.1 = 0
         ∨ (fallbackAux pm t i (cs, cf, md)).2.1 = 24) := by
  induction t with
  | nil =>
      intro i cs cf md h0 h1 h2 _ _
      exact ⟨h0, h1, h2⟩
  | cons op rest ih =>
      intro i cs cf md h0 h1 h2 hub hi
      simp only [fallbackAux]
      have hub' : (i + 1) + rest.length ≤ n := by
        simp only [List.length_cons] at hub
        omega
      by_cases hf : pm - op < 0
      · rw [if_pos hf]
        by_cases hlt : ltMin (-(pm - op)) md = true
        · rw [if_pos hlt]
          refine ih (i + 1) i 0 (some (-(pm - op))) hi ?_ (Or.inl rfl)
            hub' (by omega)
          simp only [List.length_cons] at hub
          omega
        · rw [if_neg hlt]
          exact ih (i + 1) cs cf md h0 h1 h2 hub' (by omega)
      · rw [if_neg hf]
        by_cases hg : pm - op > 24
        · rw [if_pos hg]
          by_cases hlt : ltMin (pm - op - 24) md = true
          · rw [if_pos hlt]
            refine ih (i + 1) i 24 (some (pm - op - 24)) hi ?_
              (Or.inr rfl) hub' (by omega)
            simp only [List.length_cons] at hub
            omega
          · rw [if_neg hlt]
            exact ih (i + 1) cs cf md h0 h1 h2 hub' (by omega)
        · rw [if_neg hg]
          exact ih (i + 1) cs cf md h0 h1 h2 hub' (by omega)

/-- C9: for a rest (no pitch) the mapper returns (-1, -1); for any pitch
and any configured tuning with at least one string, the returned pair is a
real position: string index within the tuning and fret between 0 and 24,
in the in-range branch and in the closest-match fallback alike. -/
theorem pitch_to_string_fret_in_range :
    (∀ m : NoteMapper, m.pitch_to_string_fret none = (-1, -1))
    ∧ (∀ (m : NoteMapper) (pm : Int), m.tuning_midi ≠ [] →
        0 ≤ (m.pitch_to_string_fret (some pm)).1
        ∧ (m.pitch_to_string_fret (some pm)).1 < (m.string_count : Int)
        ∧ 0 ≤ (m.pitch_to_string_fret (some pm)).2
        ∧ (m.pitch_to_string_fret (some pm)).2 ≤ 24) := by
  constructor
  · intro m
    rfl
  · intro m pm hne
    have hlen : 0 < m.tuning_midi.length := List.length_pos.mpr hne
    unfold NoteMapper.pitch_to_string_fret
    dsimp only
    cases hpos : positionsAux pm m.tuning_midi 0 with
    | nil =>
        dsimp only
        have hb := fallbackAux_bounds pm m.tuning_midi
          m.tuning_midi.length 0 0 0 none (le_refl 0)
          (by exact_mod_cast hlen) (Or.inl rfl) (by simp) (le_refl 0)
        obtain ⟨b1, b2, b3⟩ := hb
        refine ⟨b1, ?_, ?_, ?_⟩
        · simpa [NoteMapper.string_count] using b2
        · rcases b3 with b3 | b3 <;> simp [b3]
        · rcases b3 with b3 | b3 <;> simp [b3]
    | cons p rest =>
        dsimp only
        have hmem : bestPositionAux m.string_count p rest
            ∈ positionsAux pm m.tuning_midi 0 := by
          rw [hpos]
          rcases bestPositionAux_mem m.string_count p rest with h | h
          · rw [h]
            exact List.mem_cons_self p rest
          · exact List.mem_cons_of_mem p h
        obtain ⟨h1, h2, h3, h4⟩ := positionsAux_mem hmem
        refine ⟨h1, ?_, h3, h4⟩
        simpa [NoteMapper.string_count] using h2

/-- Witness for C9: the standard bass tuning (four strings) with MIDI
pitch 30 (in range) and with a rest. -/
theorem pitch_to_string_fret_in_range_witness :
    NoteMapper.pitch_to_string_fret { tuning_midi := BASS_STANDARD_MIDI }
        none = (-1, -1)
    ∧ (0 ≤ (NoteMapper.pitch_to_string_fret
          { tuning_midi := BASS_STANDARD_MIDI } (some 30)).1
      ∧ (NoteMapper.pitch_to_string_fret
          { tuning_midi := BASS_STANDARD_MIDI } (some 30)).1
          < (NoteMapper.string_count
              { tuning_midi := BASS_STANDARD_MIDI } : Int)
      ∧ 0 ≤ (NoteMapper.pitch_to_string_fret
          { tuning_midi := BASS_STANDARD_MIDI } (some 30)).2
      ∧ (NoteMapper.pitch_to_string_fret
          { tuning_midi := BASS_STANDARD_MIDI } (some 30)).2 ≤ 24) := by
  obtain ⟨t1, t2⟩ := pitch_to_string_fret_in_range
  exact ⟨t1 { tuning_midi := BASS_STANDARD_MIDI },
         t2 { tuning_midi := BASS_STANDARD_MIDI } 30 (by decide)⟩

/-- C10 counterexample: a run in which the imports succeed and separation
succeeds but no expected stem file was produced on disk returns the empty
mapping — `StemSeparator.separate_stems` does not always return a
non-empty mapping. -/
theorem separator_empty_mapping_on_successful_separation :
    StemSeparator.separate_stems true (Except.ok ()) (fun _ => false)
      "spleeter:4stems" "song.wav" "out" = [] := by
  rfl

/-- C10 amended: `StemSeparator.separate_stems` never propagates a
failure: on an import failure or a separation failure it returns the
fallback mapping with the original audio path; only on a successful
separation can the returned mapping (the expected stems whose files exist)
be empty. -/
theorem separator_falls_back_on_failure
    (import_ok : Bool) (sep : Except String Unit) (fe : String → Bool)
    (model audio out_dir : String)
    (hfail : import_ok = false ∨ ∃ e, sep = Except.error e) :
    StemSeparator.separate_stems import_ok sep fe model audio out_dir
      = [("original", audio)] := by
  rcases hfail with hI | ⟨e, hs⟩
  · simp [StemSeparator.separate_stems, hI]
  · by_cases hI : import_ok = false
    · simp [StemSeparator.separate_stems, hI]
    · simp [StemSeparator.separate_stems, hI, hs]

/-- Witness for the amended C10: with the spleeter import unavailable the
original audio is returned as the single stem. -/
theorem separator_falls_back_on_failure_witness :
    StemSeparator.separate_stems false (Except.ok ()) allFiles
      "spleeter:4stems" "song.wav" "out" = [("original", "song.wav")] :=
  separator_falls_back_on_failure false (Except.ok ()) allFiles
    "spleeter:4stems" "song.wav" "out" (Or.inl rfl)

end A2S
